import Mathlib

/-!
Pawprint backend: validation chains and request handlers.

A shallow embedding of `src/controllers/userController.js` and
`src/controllers/commentController.js`.

* Request fields are JavaScript values that are either `undefined` (`none`) or a
  string (`some s`); strings are sequences of Unicode scalar values.
* The express-validator chain runner, the validator.js helpers `trim`, `escape`
  and `isLength`, and `bcryptjs` are libraries; the parts of them the
  controllers rely on are written out below.
* The services (`userServices`, `profileServices`, `commentServices`,
  `notificationServices`) are passed in as records of functions over an
  abstract world `σ`; every handler returns the new world together with the
  ordered list of service calls it made.
* `upload.none()` (multer) leaves a text-only body as it is and is not modelled.
-/

namespace Pawprint

/-! ## validator.js string helpers -/

/-- The characters matched by the JavaScript regular expression class `\s`. -/
def isJsWhitespace (c : Char) : Bool :=
  let n := c.toNat
  n == 9 || n == 10 || n == 11 || n == 12 || n == 13 || n == 32 || n == 160 ||
  n == 5760 || (8192 ≤ n && n ≤ 8202) || n == 8232 || n == 8233 || n == 8239 ||
  n == 8287 || n == 12288 || n == 65279

/-- The validator.js `ltrim(str)`: `str.replace(/^\s+/g, '')`. -/
def ltrim (str : String) : String :=
  ⟨str.data.dropWhile isJsWhitespace⟩

/-- The validator.js `rtrim(str)`: drop characters from the end while they match `\s`. -/
def rtrim (str : String) : String :=
  ⟨(str.data.reverse.dropWhile isJsWhitespace).reverse⟩

/-- The validator.js `trim(str)`: `rtrim(ltrim(str))`. -/
def trim (str : String) : String :=
  rtrim (ltrim str)

/-- One pass `str.replace(/c/g, rep)` for a single character `c`. -/
def replaceAll (c : Char) (rep : String) (str : String) : String :=
  ⟨str.data.flatMap (fun d => if d = c then rep.data else [d])⟩

/-- The validator.js `escape(str)`: eight replacement passes, in the library's order
(`&`, `"`, apostrophe, `<`, `>`, `/`, backslash, backtick). -/
def escape (str : String) : String :=
  replaceAll (Char.ofNat 96) "&#96;"
    (replaceAll (Char.ofNat 92) "&#x5C;"
      (replaceAll (Char.ofNat 47) "&#x2F;"
        (replaceAll (Char.ofNat 62) "&gt;"
          (replaceAll (Char.ofNat 60) "&lt;"
            (replaceAll (Char.ofNat 39) "&#x27;"
              (replaceAll (Char.ofNat 34) "&quot;"
                (replaceAll (Char.ofNat 38) "&amp;" str)))))))

/-- The JavaScript `str.length`: the number of UTF-16 code units. -/
def jsLength (str : String) : Nat :=
  (str.data.map (fun c => if 65536 ≤ c.toNat then 2 else 1)).sum

/-- The length measured by validator.js `isLength`: UTF-16 length, minus the number of
variation selectors U+FE0E / U+FE0F, minus the number of surrogate pairs. -/
def validatorLength (str : String) : Nat :=
  let presentationSequences := (str.data.filter (fun c => c.toNat == 65039 || c.toNat == 65038)).length
  let surrogatePairs := (str.data.filter (fun c => decide (65536 ≤ c.toNat))).length
  jsLength str - presentationSequences - surrogatePairs

/-- The validator.js `isLength(str, { min })`. -/
def isLength (min : Nat) (str : String) : Bool :=
  decide (min ≤ validatorLength str)

/-- The express-validator `toString(value)` on a field value: `undefined` becomes `''`. -/
def toStr : Option String → String
  | none => ""
  | some s => s

/-- JavaScript truthiness of a value that is `undefined`/`null` or a string. -/
def truthy : Option String → Bool
  | none => false
  | some s => !(s == "")

/-! ## Data model -/

/-- The body fields read by the user controller. -/
inductive FieldName
  | firstName | lastName | email | password | confirmPassword
  deriving DecidableEq, Repr

/-- The name of a field as it appears in `req.body` and in an error's `path`. -/
def FieldName.path : FieldName → String
  | .firstName => "firstName"
  | .lastName => "lastName"
  | .email => "email"
  | .password => "password"
  | .confirmPassword => "confirmPassword"

/-- The `req.body` of a user-controller request; `none` is `undefined`. -/
structure Body where
  firstName : Option String
  lastName : Option String
  email : Option String
  password : Option String
  confirmPassword : Option String
  deriving DecidableEq, Repr

/-- Read `req.body[field]`. -/
def Body.get (b : Body) : FieldName → Option String
  | .firstName => b.firstName
  | .lastName => b.lastName
  | .email => b.email
  | .password => b.password
  | .confirmPassword => b.confirmPassword

/-- Write `req.body[field] = v`. -/
def Body.set (b : Body) (f : FieldName) (v : Option String) : Body :=
  match f with
  | .firstName => { b with firstName := v }
  | .lastName => { b with lastName := v }
  | .email => { b with email := v }
  | .password => { b with password := v }
  | .confirmPassword => { b with confirmPassword := v }

/-- A request: its body and `req.user.id`. -/
structure Req where
  body : Body
  userId : Nat
  deriving DecidableEq, Repr

/-- A user record as returned by `userServices`; `none` is `null`. -/
structure User where
  id : Nat
  firstName : String
  lastName : String
  email : String
  password : Option String
  facebookId : Option String
  googleId : Option String
  deriving DecidableEq, Repr

/-- The object handed to `userServices.createUser` / `createGuestUser`. -/
structure UserData where
  firstName : String
  lastName : String
  email : String
  password : String
  deriving DecidableEq, Repr

/-- The object handed to `profileServices.createOrUpdateProfile`. -/
structure ProfileData where
  id : String
  username : String
  petName : String
  active : Bool
  deriving DecidableEq, Repr

/-- A profile record as returned by `profileServices`. -/
structure Profile where
  id : Nat
  username : String
  petName : String
  active : Bool
  userId : Nat
  deriving DecidableEq, Repr

/-- The `formData` object built by the `editUser` handler; `none` is a key that was not set. -/
structure FormData where
  firstName : Option String
  lastName : Option String
  email : Option String
  password : Option String
  deriving DecidableEq, Repr

/-- An express-validator field error `{ type: 'field', value, msg, path, location: 'body' }`. -/
structure ValidationError where
  path : String
  msg : String
  value : Option String
  deriving DecidableEq, Repr

/-- The services the user controller calls, over a world `σ`. Reads return the record or
`null`; writes return the record and the new world, or throw an error with a message.
`hash s` is `bcrypt.hash(s, 10)` and `compare s h` is `bcrypt.compare(s, h)` on two strings. -/
structure Services (σ : Type) where
  getUserByEmail : σ → String → Option User
  getUserById : σ → Nat → Option User
  createUser : σ → UserData → Except String (User × σ)
  createGuestUser : σ → UserData → Except String (User × σ)
  createOrUpdateProfile : σ → ProfileData → Nat → Except String (Profile × σ)
  editUser : σ → FormData → Nat → Except String (User × σ)
  hash : String → String
  compare : String → String → Bool

/-- The service calls a user-controller handler makes, in order. -/
inductive Call
  | bcryptHash (s : String)
  | createUser (d : UserData)
  | createGuestUser (d : UserData)
  | createOrUpdateProfile (d : ProfileData) (userId : Nat)
  | editUser (d : FormData) (userId : Nat)
  deriving DecidableEq, Repr

/-- The JSON bodies the user controller sends. -/
inductive ResBody
  | errors (errors : List ValidationError)
  | error (error : String)
  | message (message : String)
  | newUser (newUser : User) (defaultProfile : Profile)
  | updatedUser (updatedUser : User) (message : String)
  deriving DecidableEq, Repr

/-- The response written by `res.status(status).json(body)`. -/
structure Response where
  status : Nat
  body : ResBody
  deriving DecidableEq, Repr

/-- What a middleware stack leaves behind: the world, the request, the service calls made,
the response sent (if any) and whether `next()` was called. -/
structure Outcome (σ : Type) where
  world : σ
  req : Req
  calls : List Call
  response : Option Response
  next : Bool

/-! ## The express-validator chain runner -/

/-- How a custom validator ends: a plain function returns a value (its truthiness is kept),
an `async` function resolves with a value, or the function throws / rejects with
`new Error(msg)`. -/
inductive CustomResult
  | returned (b : Bool)
  | resolved (b : Bool)
  | threw (msg : String)
  deriving DecidableEq, Repr

/-- One item of a validation chain's stack. -/
inductive Item
  | sanitizer (f : String → String)
  | standard (validator : String → Bool) (message : Option String)
  | custom (validator : Req → Option String → CustomResult)

/-- A validation chain `body(field, message)` with its `.optional()` flag and its stack. -/
structure Chain where
  field : FieldName
  message : Option String
  optional : Bool
  stack : List Item

/-- The message of an added error: `error.message || context.message || 'Invalid value'`. -/
def errorMsg (itemMsg chainMsg : Option String) : String :=
  if truthy itemMsg then toStr itemMsg
  else if truthy chainMsg then toStr chainMsg
  else "Invalid value"

/-- Run one stack item on the current value of the chain's field.
An optional chain skips a field whose value is `undefined`. A sanitizer writes
`f(toString(value))` back to the body. A standard validator adds an error when it fails on
`toString(value)`. A custom validator adds an error when it returns a falsy value without
being a promise (message of the chain) or when it throws (message of the thrown error);
a promise that resolves never adds an error, whatever it resolves with. -/
def runItem (c : Chain) (st : Req × List ValidationError) (it : Item) :
    Req × List ValidationError :=
  let req := st.1
  let value := req.body.get c.field
  if c.optional && value.isNone then st
  else
    match it with
    | .sanitizer f =>
      ({ req with body := req.body.set c.field (some (f (toStr value))) }, st.2)
    | .standard validator message =>
      if validator (toStr value) then st
      else (req, st.2 ++ [⟨c.field.path, errorMsg message c.message, value⟩])
    | .custom validator =>
      match validator req value with
      | .returned true => st
      | .returned false => (req, st.2 ++ [⟨c.field.path, errorMsg none c.message, value⟩])
      | .resolved _ => st
      | .threw msg => (req, st.2 ++ [⟨c.field.path, errorMsg (some msg) c.message, value⟩])

/-- Run a chain as a middleware: its items in order. -/
def Chain.run (c : Chain) (st : Req × List ValidationError) : Req × List ValidationError :=
  c.stack.foldl (runItem c) st

/-- Run the chains of a middleware array in order; the error list is what
`validationResult(req).array()` returns afterwards. -/
def runChains (cs : List Chain) (req : Req) : Req × List ValidationError :=
  cs.foldl (fun st c => c.run st) (req, [])

/-- The JavaScript `user && p(user)` for a record that may be `null`. -/
def userAnd (user : Option User) (p : User → Bool) : Bool :=
  match user with
  | none => false
  | some u => p u

/-! ## userController.createUser -/

/-- The validation chains of `createUser` (userController.js, lines 31-69). -/
def createUserChains {σ : Type} (S : Services σ) (w : σ) : List Chain :=
  [ { field := .firstName
      message := some "First name must be a minimum of 2 characters"
      optional := false
      stack := [.sanitizer trim, .standard (isLength 2) none, .sanitizer escape] },
    { field := .lastName
      message := some "Last name must be a minimum of 2 characters"
      optional := false
      stack := [.sanitizer trim, .standard (isLength 2) none, .sanitizer escape] },
    { field := .email
      message := none
      optional := false
      stack :=
        [ .sanitizer trim, .sanitizer escape,
          .custom (fun _ value =>
            let user := S.getUserByEmail w (toStr value)
            if userAnd user (fun u => truthy u.facebookId) then
              .threw "An account with this email already exists using the Facebook sign in option"
            else if userAnd user (fun u => truthy u.googleId) then
              .threw "An account with this email already exists using the Google sign in option"
            else if user.isSome then
              .threw "An account with this email already exists"
            else .resolved true) ] },
    { field := .password
      message := some "Password must be a minimum of 3 characters"
      optional := false
      stack := [.sanitizer trim, .standard (isLength 6) none, .sanitizer escape] },
    { field := .confirmPassword
      message := some "Passwords must match"
      optional := false
      stack :=
        [ .sanitizer trim, .sanitizer escape,
          .custom (fun req value =>
            if value ≠ req.body.password then .returned false else .returned true) ] } ]

/-- The JavaScript `email.split('@')[0]`: the part before the first `@`. -/
def splitEmailHead (email : String) : String :=
  ⟨email.data.takeWhile (fun c => c != Char.ofNat 64)⟩

/-- The final handler of `createUser` (lines 71-103), given `validationResult(req).array()`. -/
def createUserHandler {σ : Type} (S : Services σ) (w : σ) (req : Req)
    (errors : List ValidationError) : Outcome σ :=
  if !errors.isEmpty then
    { world := w, req := req, calls := [], next := false
      response := some ⟨400, .errors errors⟩ }
  else
    let hashedPassword := S.hash (toStr req.body.password)
    let userData : UserData :=
      { firstName := toStr req.body.firstName
        lastName := toStr req.body.lastName
        email := toStr req.body.email
        password := hashedPassword }
    match S.createUser w userData with
    | .error message =>
      { world := w, req := req, next := false
        calls := [.bcryptHash (toStr req.body.password), .createUser userData]
        response := some ⟨500, .error message⟩ }
    | .ok (newUser, w1) =>
      let defaultUsername := splitEmailHead newUser.email
      let profileData : ProfileData :=
        { id := "null", username := defaultUsername, petName := "Default", active := true }
      match S.createOrUpdateProfile w1 profileData newUser.id with
      | .error message =>
        { world := w1, req := req, next := false
          calls := [.bcryptHash (toStr req.body.password), .createUser userData,
                    .createOrUpdateProfile profileData newUser.id]
          response := some ⟨500, .error message⟩ }
      | .ok (defaultProfile, w2) =>
        { world := w2, req := req, next := false
          calls := [.bcryptHash (toStr req.body.password), .createUser userData,
                    .createOrUpdateProfile profileData newUser.id]
          response := some ⟨200, .newUser newUser defaultProfile⟩ }

/-- The middleware array `createUser`: the chains, then the handler. -/
def createUser {σ : Type} (S : Services σ) (w : σ) (req : Req) : Outcome σ :=
  let r := runChains (createUserChains S w) req
  createUserHandler S w r.1 r.2

/-! ## userController.createGuestUser -/

/-- The handler `createGuestUser` (lines 106-137); `uniqueIdentifier` is the string drawn by
`randomstring.generate({ length: 8, charset: 'numeric' })`. -/
def createGuestUser {σ : Type} (S : Services σ) (w : σ) (req : Req)
    (uniqueIdentifier : String) : Outcome σ :=
  let hashedPassword := S.hash uniqueIdentifier
  let guestData : UserData :=
    { firstName := "Human"
      lastName := uniqueIdentifier
      email := "Human" ++ uniqueIdentifier ++ "@pawprint.com"
      password := hashedPassword }
  match S.createGuestUser w guestData with
  | .error message =>
    { world := w, req := req, next := false
      calls := [.bcryptHash uniqueIdentifier, .createGuestUser guestData]
      response := some ⟨500, .error message⟩ }
  | .ok (newGuestUser, w1) =>
    let profileData : ProfileData :=
      { id := "null"
        username := newGuestUser.firstName ++ "_" ++ newGuestUser.lastName
        petName := "Default"
        active := true }
    match S.createOrUpdateProfile w1 profileData newGuestUser.id with
    | .error message =>
      { world := w1, req := req, next := false
        calls := [.bcryptHash uniqueIdentifier, .createGuestUser guestData,
                  .createOrUpdateProfile profileData newGuestUser.id]
        response := some ⟨500, .error message⟩ }
    | .ok (_, w2) =>
      { world := w2
        req := { req with body := { req.body with email := some newGuestUser.email
                                                  password := some uniqueIdentifier } }
        calls := [.bcryptHash uniqueIdentifier, .createGuestUser guestData,
                  .createOrUpdateProfile profileData newGuestUser.id]
        response := none
        next := true }

/-- The strings `randomstring.generate({ length: 8, charset: 'numeric' })` can return. -/
def isGuestSuffix (s : String) : Bool :=
  s.data.length == 8 && s.data.all (fun c => 48 ≤ c.toNat && c.toNat ≤ 57)

/-! ## userController.editUser -/

/-- The validation chains of `editUser` (lines 141-201). -/
def editUserChains {σ : Type} (S : Services σ) (w : σ) : List Chain :=
  [ { field := .firstName
      message := some "First name must be a minimum of 2 characters"
      optional := true
      stack := [.sanitizer trim, .standard (isLength 2) none, .sanitizer escape] },
    { field := .lastName
      message := some "Last name must be a minimum of 2 characters"
      optional := true
      stack := [.sanitizer trim, .standard (isLength 2) none, .sanitizer escape] },
    { field := .email
      message := none
      optional := true
      stack :=
        [ .sanitizer trim, .sanitizer escape,
          .custom (fun req _ =>
            let user := S.getUserById w req.userId
            if userAnd user (fun u => truthy u.facebookId) then
              .threw "You cannot change your email since it is linked to the Facebook sign in option"
            else if userAnd user (fun u => truthy u.googleId) then
              .threw "You cannot change your email since it is linked to the Google sign in option"
            else .resolved true) ] },
    { field := .password
      message := none
      optional := true
      stack :=
        [ .sanitizer trim,
          .standard (isLength 6) (some "New password must be a minimum of 6 characters"),
          .sanitizer escape,
          .custom (fun req value =>
            let user := S.getUserById w req.userId
            if userAnd user (fun u => truthy u.facebookId) then
              .threw "You cannot change your password since it is linked to the Facebook sign in option"
            else if userAnd user (fun u => truthy u.googleId) then
              .threw "You cannot change your password since it is linked to the Google sign in option"
            else if truthy value && !truthy req.body.confirmPassword then
              .threw "Confirm password is required when setting a new password"
            else .resolved true) ] },
    { field := .confirmPassword
      message := some "New passwords must match"
      optional := true
      stack :=
        [ .sanitizer trim, .sanitizer escape,
          .custom (fun req value =>
            if value ≠ req.body.password then .returned false else .returned true) ] } ]

/-- The JavaScript `if (v) formData.key = v`: the key is set only for a truthy value. -/
def ifTruthy (v : Option String) : Option String :=
  if truthy v then v else none

/-- The final handler of `editUser` (lines 202-224), given `validationResult(req).array()`. -/
def editUserHandler {σ : Type} (S : Services σ) (w : σ) (req : Req)
    (errors : List ValidationError) : Outcome σ :=
  if !errors.isEmpty then
    { world := w, req := req, calls := [], next := false
      response := some ⟨400, .errors errors⟩ }
  else
    let formData : FormData :=
      { firstName := ifTruthy req.body.firstName
        lastName := ifTruthy req.body.lastName
        email := ifTruthy req.body.email
        password :=
          if truthy req.body.password then some (S.hash (toStr req.body.password)) else none }
    let hashCalls : List Call :=
      if truthy req.body.password then [.bcryptHash (toStr req.body.password)] else []
    match S.editUser w formData req.userId with
    | .error message =>
      { world := w, req := req, next := false
        calls := hashCalls ++ [.editUser formData req.userId]
        response := some ⟨500, .message message⟩ }
    | .ok (updatedUser, w1) =>
      { world := w1, req := req, next := false
        calls := hashCalls ++ [.editUser formData req.userId]
        response := some ⟨200, .updatedUser updatedUser "Successfully updated account"⟩ }

/-- The middleware array `editUser`: the chains, then the handler. -/
def editUser {σ : Type} (S : Services σ) (w : σ) (req : Req) : Outcome σ :=
  let r := runChains (editUserChains S w) req
  editUserHandler S w r.1 r.2

/-! ## userController.authenticateUser -/

/-- The bcryptjs `compare(s, hash)` for a string `s`: it rejects when `hash` is not a
string. -/
def bcryptCompare {σ : Type} (S : Services σ) (s : String) (hash : Option String) :
    Except String Bool :=
  match hash with
  | none => .error "Illegal arguments: string, object"
  | some h => .ok (S.compare s h)

/-- The validation chains of `authenticateUser` (lines 252-283). -/
def authenticateUserChains {σ : Type} (S : Services σ) (w : σ) : List Chain :=
  [ { field := .email
      message := some "Email does not exist"
      optional := false
      stack :=
        [ .sanitizer trim, .sanitizer escape,
          .custom (fun _ value =>
            let user := S.getUserByEmail w (toStr value)
            if userAnd user (fun u => truthy u.googleId) then
              .threw "An account with this email already exists using the Google sign in option"
            else if userAnd user (fun u => truthy u.facebookId) then
              .threw "An account with this email already exists using the Facebook sign in option"
            else if !user.isSome then
              .threw "An account using this email does not exist"
            else .resolved true) ] },
    { field := .password
      message := some "Incorrect password"
      optional := false
      stack :=
        [ .sanitizer trim, .sanitizer escape,
          .custom (fun req value =>
            match S.getUserByEmail w (toStr req.body.email) with
            | none => .resolved false
            | some user =>
              if truthy user.facebookId then .resolved false
              else
                match bcryptCompare S (toStr value) user.password with
                | .error message => .threw message
                | .ok isMatch =>
                  if !isMatch then .threw "Incorrect password" else .resolved true) ] } ]

/-- The final handler of `authenticateUser` (lines 284-291). -/
def authenticateUserHandler {σ : Type} (w : σ) (req : Req)
    (errors : List ValidationError) : Outcome σ :=
  if !errors.isEmpty then
    { world := w, req := req, calls := [], next := false
      response := some ⟨400, .errors errors⟩ }
  else
    { world := w, req := req, calls := [], next := true, response := none }

/-- The middleware array `authenticateUser`: the chains, then the handler. -/
def authenticateUser {σ : Type} (S : Services σ) (w : σ) (req : Req) : Outcome σ :=
  let r := runChains (authenticateUserChains S w) req
  authenticateUserHandler w r.1 r.2

/-! ## commentController -/

/-- The object `commentServices.likeComment` resolves with, as far as the controller reads
it: `commentLike.comment.profileId` and `commentLike.commentLike.id`. -/
structure LikeResult where
  commentProfileId : Nat
  commentLikeId : Nat
  deriving DecidableEq, Repr

/-- A request to the comment controller: `req.params.postId`, `req.params.commentId`,
`req.params.id` and `req.body.activeId`. -/
structure CommentReq where
  postId : Nat
  commentId : Nat
  id : Nat
  activeId : Nat
  deriving DecidableEq, Repr

/-- The services the comment controller calls, over a world `σ`; each either resolves or
throws an error with a message. -/
structure CommentServices (σ : Type) where
  getComments : σ → Nat → Except String (List String)
  deleteComment : σ → Nat → Except String σ
  likeComment : σ → Nat → Nat → Except String (LikeResult × σ)
  unlikeComment : σ → Nat → Nat → Except String σ
  createCommentLikeNotification : σ → Nat → Nat → Nat → Except String σ

/-- The service calls a comment-controller handler makes, in order. -/
inductive CommentCall
  | getComments (postId : Nat)
  | deleteComment (commentId : Nat)
  | likeComment (id : Nat) (activeId : Nat)
  | unlikeComment (id : Nat) (activeId : Nat)
  | createCommentLikeNotification (actorId : Nat) (recipientId : Nat) (likeId : Nat)
  deriving DecidableEq, Repr

/-- The JSON bodies the comment controller sends. -/
inductive CommentResBody
  | comments (comments : List String) (message : String)
  | message (message : String)
  | error (error : String)
  deriving DecidableEq, Repr

/-- What a comment-controller handler leaves behind. -/
structure CommentOutcome (σ : Type) where
  world : σ
  calls : List CommentCall
  status : Nat
  body : CommentResBody

/-- The handler `getComments` (commentController.js, lines 5-14). -/
def getComments {σ : Type} (C : CommentServices σ) (w : σ) (req : CommentReq) :
    CommentOutcome σ :=
  match C.getComments w req.postId with
  | .ok comments =>
    { world := w, calls := [.getComments req.postId], status := 200
      body := .comments comments "Successfully fetched comments" }
  | .error message =>
    { world := w, calls := [.getComments req.postId], status := 500, body := .error message }

/-- The handler `deleteComment` (lines 16-23). -/
def deleteComment {σ : Type} (C : CommentServices σ) (w : σ) (req : CommentReq) :
    CommentOutcome σ :=
  match C.deleteComment w req.commentId with
  | .ok w1 =>
    { world := w1, calls := [.deleteComment req.commentId], status := 200
      body := .message "Successfully deleted comment" }
  | .error message =>
    { world := w, calls := [.deleteComment req.commentId], status := 500
      body := .error message }

/-- The handler `likeComment` (lines 25-40): both service calls sit in one `try` block. -/
def likeComment {σ : Type} (C : CommentServices σ) (w : σ) (req : CommentReq) :
    CommentOutcome σ :=
  match C.likeComment w req.id req.activeId with
  | .error message =>
    { world := w, calls := [.likeComment req.id req.activeId], status := 500
      body := .error message }
  | .ok (commentLike, w1) =>
    match C.createCommentLikeNotification w1 req.activeId commentLike.commentProfileId
        commentLike.commentLikeId with
    | .error message =>
      { world := w1
        calls := [.likeComment req.id req.activeId,
                  .createCommentLikeNotification req.activeId commentLike.commentProfileId
                    commentLike.commentLikeId]
        status := 500
        body := .error message }
    | .ok w2 =>
      { world := w2
        calls := [.likeComment req.id req.activeId,
                  .createCommentLikeNotification req.activeId commentLike.commentProfileId
                    commentLike.commentLikeId]
        status := 200
        body := .message "Successfully liked comment" }

/-- The handler `unlikeComment` (lines 42-49). -/
def unlikeComment {σ : Type} (C : CommentServices σ) (w : σ) (req : CommentReq) :
    CommentOutcome σ :=
  match C.unlikeComment w req.id req.activeId with
  | .ok w1 =>
    { world := w1, calls := [.unlikeComment req.id req.activeId], status := 200
      body := .message "Successfully unliked comment" }
  | .error message =>
    { world := w, calls := [.unlikeComment req.id req.activeId], status := 500
      body := .error message }

/-- Whether a call is a call of the notification service. -/
def CommentCall.isNotification : CommentCall → Bool
  | .createCommentLikeNotification _ _ _ => true
  | _ => false

/-! ## An in-memory identity store -/

/-- Modelled from the spec: `userServices` and `profileServices` are not among the sources;
this is the Identity Store boundary of the specification (`findByEmail`, `findById`,
`create`, `update`, with the unique-email constraint enforced by the store) over a list of
accounts, looking an account up by the exact email string. Profiles are returned but not
kept. -/
def memoryStore (hash : String → String) (compare : String → String → Bool) :
    Services (List User) where
  getUserByEmail := fun w email => w.find? (fun u => u.email == email)
  getUserById := fun w id => w.find? (fun u => u.id == id)
  createUser := fun w d =>
    if (w.find? (fun u => u.email == d.email)).isSome then
      .error "Unique constraint failed on the fields: (email)"
    else
      let u : User :=
        { id := w.length + 1, firstName := d.firstName, lastName := d.lastName
          email := d.email, password := some d.password, facebookId := none, googleId := none }
      .ok (u, w ++ [u])
  createGuestUser := fun w d =>
    if (w.find? (fun u => u.email == d.email)).isSome then
      .error "Unique constraint failed on the fields: (email)"
    else
      let u : User :=
        { id := w.length + 1, firstName := d.firstName, lastName := d.lastName
          email := d.email, password := some d.password, facebookId := none, googleId := none }
      .ok (u, w ++ [u])
  createOrUpdateProfile := fun w d userId =>
    .ok ({ id := userId, username := d.username, petName := d.petName, active := d.active
           userId := userId }, w)
  editUser := fun w d userId =>
    match w.find? (fun u => u.id == userId) with
    | none => .error "Record to update not found"
    | some u =>
      let u1 : User :=
        { u with firstName := d.firstName.getD u.firstName
                 lastName := d.lastName.getD u.lastName
                 email := d.email.getD u.email
                 password := match d.password with
                   | some h => some h
                   | none => u.password }
      .ok (u1, w.map (fun v => if v.id == userId then u1 else v))
  hash := hash
  compare := compare

/-- A toy credential hasher for concrete runs: the hash is the text behind a marker. -/
def toyHash (s : String) : String := "#" ++ s

/-- The verify function that goes with `toyHash`. -/
def toyCompare (s h : String) : Bool := h == "#" ++ s

/-! ## Closed forms used in the proofs -/

/-- The errors one run of a custom validator adds (the `custom` branch of `runItem`). -/
def customErrors (fld : FieldName) (msg : Option String) (value : Option String) :
    CustomResult → List ValidationError
  | .returned true => []
  | .returned false => [⟨fld.path, errorMsg none msg, value⟩]
  | .resolved _ => []
  | .threw m => [⟨fld.path, errorMsg (some m) msg, value⟩]

/-- A field value after `.trim().escape()`. -/
def sanitize (v : Option String) : String := escape (trim (toStr v))

/-- Closed form of the errors of a `.trim().isLength({ min }).escape()` chain. -/
def checkErrors (path msg : String) (min : Nat) (v : Option String) : List ValidationError :=
  if isLength min (trim (toStr v)) then [] else [⟨path, msg, some (trim (toStr v))⟩]

/-- Closed form of the errors of the `createUser` email chain, given the looked-up account. -/
def createEmailErrors (user : Option User) (value : String) : List ValidationError :=
  match user with
  | none => []
  | some u =>
    [⟨"email",
      if truthy u.facebookId then
        "An account with this email already exists using the Facebook sign in option"
      else if truthy u.googleId then
        "An account with this email already exists using the Google sign in option"
      else "An account with this email already exists",
      some value⟩]

/-- Closed form of the errors of a `confirmPassword` chain. -/
def matchErrors (msg : String) (confirm password : Option String) : List ValidationError :=
  if confirm = password then [] else [⟨"confirmPassword", msg, confirm⟩]

/-- A string after `.trim().escape()`. -/
def sanitizeStr (x : String) : String := escape (trim x)

/-- Closed form of the errors of the `editUser` email chain, given the target account. -/
def editEmailErrors (user : Option User) (email : Option String) : List ValidationError :=
  match email with
  | none => []
  | some x =>
    if userAnd user (fun u => truthy u.facebookId) then
      [⟨"email", "You cannot change your email since it is linked to the Facebook sign in option",
        some (sanitizeStr x)⟩]
    else if userAnd user (fun u => truthy u.googleId) then
      [⟨"email", "You cannot change your email since it is linked to the Google sign in option",
        some (sanitizeStr x)⟩]
    else []

/-- Closed form of the errors of the `editUser` password chain, given the target account. -/
def editPasswordErrors (user : Option User) (password confirmPassword : Option String) :
    List ValidationError :=
  match password with
  | none => []
  | some x =>
    checkErrors "password" "New password must be a minimum of 6 characters" 6 (some x) ++
    if userAnd user (fun u => truthy u.facebookId) then
      [⟨"password",
        "You cannot change your password since it is linked to the Facebook sign in option",
        some (sanitizeStr x)⟩]
    else if userAnd user (fun u => truthy u.googleId) then
      [⟨"password",
        "You cannot change your password since it is linked to the Google sign in option",
        some (sanitizeStr x)⟩]
    else if truthy (some (sanitizeStr x)) && !truthy confirmPassword then
      [⟨"password", "Confirm password is required when setting a new password",
        some (sanitizeStr x)⟩]
    else []

/-- Closed form of the errors of an optional `.trim().isLength({ min }).escape()` chain. -/
def optCheckErrors (path msg : String) (min : Nat) (v : Option String) : List ValidationError :=
  match v with
  | none => []
  | some x => checkErrors path msg min (some x)

/-- Closed form of the errors of the `editUser` confirmPassword chain. -/
def editConfirmErrors (password confirmPassword : Option String) : List ValidationError :=
  match confirmPassword with
  | none => []
  | some y => matchErrors "New passwords must match" (some (sanitizeStr y))
      (password.map sanitizeStr)

/-- Closed form of the errors of the `authenticateUser` email chain, given the looked-up
account. -/
def authEmailErrors (user : Option User) (value : String) : List ValidationError :=
  match user with
  | none => [⟨"email", "An account using this email does not exist", some value⟩]
  | some u =>
    if truthy u.googleId then
      [⟨"email", "An account with this email already exists using the Google sign in option",
        some value⟩]
    else if truthy u.facebookId then
      [⟨"email", "An account with this email already exists using the Facebook sign in option",
        some value⟩]
    else []

/-- Closed form of the errors of the `authenticateUser` password chain, given the looked-up
account. -/
def authPasswordErrors (compare : String → String → Bool) (user : Option User)
    (value : String) : List ValidationError :=
  match user with
  | none => []
  | some u =>
    if truthy u.facebookId then []
    else
      match u.password with
      | none => [⟨"password", "Illegal arguments: string, object", some value⟩]
      | some h => if compare value h then [] else [⟨"password", "Incorrect password", some value⟩]

/-! ## Concrete data for the worked examples -/

/-- The in-memory store with the toy hasher. -/
def exampleServices : Services (List User) := memoryStore toyHash toyCompare

/-- An account linked to Facebook. -/
def exampleFacebookUser : User :=
  { id := 7, firstName := "Fay", lastName := "Book", email := "fay@x.com"
    password := some "#secret1", facebookId := some "fb-1", googleId := none }

/-- A create request whose first name is too short. -/
def shortNameReq : Req :=
  ⟨⟨some "A", some "Vo", some "a@x.com", some "secret1", some "secret1"⟩, 1⟩

/-- The create request of the specification's example. -/
def validCreateReq : Req :=
  ⟨⟨some "Al", some "Vo", some "a@x.com", some "secret1", some "secret1"⟩, 1⟩

/-- A local account whose password is `secret1`. -/
def exampleLocalUser : User :=
  { id := 8, firstName := "Lo", lastName := "Cal", email := "lo@x.com"
    password := some "#secret1", facebookId := none, googleId := none }

/-- An account that exists through Facebook only: linked, and without a password hash. -/
def exampleFacebookOnlyUser : User :=
  { id := 9, firstName := "Fay", lastName := "Book", email := "fay@x.com"
    password := none, facebookId := some "fb-1", googleId := none }

/-- A sign-in with the Facebook-linked account's email and a password. -/
def wrongPasswordFacebookReq : Req := ⟨⟨none, none, some "fay@x.com", some "wrong", none⟩, 0⟩

/-- A sign-in with the local account's email and a wrong password. -/
def wrongPasswordLocalReq : Req := ⟨⟨none, none, some "lo@x.com", some "wrong", none⟩, 0⟩

/-- The example request with the email in another letter case and surrounded by blanks. -/
def upperCaseEmailReq : Req :=
  ⟨⟨some "Al", some "Vo", some " A@x.com ", some "secret1", some "secret1"⟩, 1⟩

deriving instance DecidableEq for Except

/-- The world of the example comment services: the comments with their authors, the likes
and the notifications. -/
structure CommentWorld where
  comments : List (Nat × Nat)
  likes : List (Nat × Nat)
  notifications : List (Nat × Nat × Nat)
  deriving DecidableEq, Repr

/-- Modelled from the spec: `commentServices` and `notificationServices` are not among the
sources; these are the Comment/Like storage and Notification boundaries of the
specification over `CommentWorld`. Liking an unknown comment throws; the like id is the
number of likes so far plus one; `notifyFails` makes the notification write throw. -/
def exampleCommentServices (notifyFails : Bool) : CommentServices CommentWorld where
  getComments := fun _ _ => .ok []
  deleteComment := fun w commentId =>
    .ok { w with comments := w.comments.filter (fun c => c.1 != commentId) }
  likeComment := fun w id activeId =>
    match w.comments.find? (fun c => c.1 == id) with
    | none => .error "No Comment found"
    | some c =>
      .ok (⟨c.2, w.likes.length + 1⟩, { w with likes := w.likes ++ [(id, activeId)] })
  unlikeComment := fun w id activeId =>
    .ok { w with likes := w.likes.filter (fun l => l != (id, activeId)) }
  createCommentLikeNotification := fun w actorId recipientId likeId =>
    if notifyFails then .error "notification store unavailable"
    else .ok { w with notifications := w.notifications ++ [(actorId, recipientId, likeId)] }

/-- A world with comment 3 written by profile 5. -/
def exampleCommentWorld : CommentWorld := ⟨[(3, 5)], [], []⟩

/-- An edit request whose password is three blanks, without confirmPassword. -/
def blankPasswordReq : Req := ⟨⟨none, none, none, some "   ", none⟩, 8⟩

/-- An edit request with a password and an empty confirmPassword field. -/
def emptyConfirmReq : Req := ⟨⟨none, none, none, some "secret1", some ""⟩, 8⟩

/-- A character that `trim` and `escape` leave alone: not whitespace and none of the eight
escaped characters. -/
def isPlainChar (c : Char) : Bool :=
  !isJsWhitespace c && c != Char.ofNat 38 && c != Char.ofNat 34 && c != Char.ofNat 39 &&
  c != Char.ofNat 60 && c != Char.ofNat 62 && c != Char.ofNat 47 && c != Char.ofNat 92 &&
  c != Char.ofNat 96

/-! ## The chain runner on the shapes of chain the controller uses -/

@[simp] theorem Body.get_set_self (b : Body) (f : FieldName) (v : Option String) :
    (b.set f v).get f = v := by cases f <;> rfl

@[simp] theorem Body.set_set (b : Body) (f : FieldName) (v v1 : Option String) :
    (b.set f v).set f v1 = b.set f v1 := by cases f <;> rfl

theorem runItem_sanitizer (fld msg stk) (req : Req) (es) (f : String → String) :
    runItem ⟨fld, msg, false, stk⟩ (req, es) (.sanitizer f) =
      ({ req with body := req.body.set fld (some (f (toStr (req.body.get fld)))) }, es) := rfl

theorem runItem_standard (fld msg stk) (req : Req) (es) (v : String → Bool) (m) :
    runItem ⟨fld, msg, false, stk⟩ (req, es) (.standard v m) =
      (req, es ++ if v (toStr (req.body.get fld)) then []
                  else [⟨fld.path, errorMsg m msg, req.body.get fld⟩]) := by
  simp only [runItem, Bool.false_and, Bool.false_eq_true, if_false]
  split <;> simp

theorem runItem_custom (fld msg stk) (req : Req) (es) (v : Req → Option String → CustomResult) :
    runItem ⟨fld, msg, false, stk⟩ (req, es) (.custom v) =
      (req, es ++ customErrors fld msg (req.body.get fld) (v req (req.body.get fld))) := by
  simp only [runItem, Bool.false_and, Bool.false_eq_true, if_false]
  split <;> simp_all [customErrors]

theorem runItem_optional_none (fld msg stk) (st : Req × List ValidationError) (it : Item)
    (h : st.1.body.get fld = none) :
    runItem ⟨fld, msg, true, stk⟩ st it = st := by
  simp [runItem, h]

theorem runItem_optional_some (fld msg stk) (st : Req × List ValidationError) (it : Item)
    (h : (st.1.body.get fld).isSome) :
    runItem ⟨fld, msg, true, stk⟩ st it = runItem ⟨fld, msg, false, stk⟩ st it := by
  obtain ⟨x, hx⟩ := Option.isSome_iff_exists.mp h
  cases it <;> simp [runItem, hx]

theorem runItem_keeps_some (fld msg stk) (st : Req × List ValidationError) (it : Item)
    (h : (st.1.body.get fld).isSome) :
    ((runItem ⟨fld, msg, false, stk⟩ st it).1.body.get fld).isSome := by
  obtain ⟨req, es⟩ := st
  cases it with
  | sanitizer f => simp [runItem_sanitizer]
  | standard v m => simpa [runItem_standard] using h
  | custom v => simpa [runItem_custom] using h

theorem foldl_optional_none (fld msg stk) (items : List Item) (st : Req × List ValidationError)
    (h : st.1.body.get fld = none) :
    items.foldl (runItem ⟨fld, msg, true, stk⟩) st = st := by
  induction items with
  | nil => rfl
  | cons it rest ih => simp [List.foldl, runItem_optional_none _ _ _ _ _ h, ih]

theorem foldl_optional_some (fld msg stk) (items : List Item) (st : Req × List ValidationError)
    (h : (st.1.body.get fld).isSome) :
    items.foldl (runItem ⟨fld, msg, true, stk⟩) st =
      items.foldl (runItem ⟨fld, msg, false, stk⟩) st := by
  induction items generalizing st with
  | nil => rfl
  | cons it rest ih =>
    simp only [List.foldl]
    rw [runItem_optional_some _ _ _ _ _ h]
    exact ih _ (runItem_keeps_some _ _ _ _ _ h)

/-- An optional chain leaves an absent field alone. -/
theorem run_optional_none (fld msg stk) (st : Req × List ValidationError)
    (h : st.1.body.get fld = none) :
    Chain.run ⟨fld, msg, true, stk⟩ st = st :=
  foldl_optional_none fld msg stk stk st h

/-- An optional chain treats a supplied field as the same chain without `.optional()`. -/
theorem run_optional_some (fld msg stk) (st : Req × List ValidationError)
    (h : (st.1.body.get fld).isSome) :
    Chain.run ⟨fld, msg, true, stk⟩ st = Chain.run ⟨fld, msg, false, stk⟩ st :=
  foldl_optional_some fld msg stk stk st h

theorem run_check (fld msg) (v : String → Bool) (m) (req : Req) (es) :
    Chain.run ⟨fld, msg, false, [.sanitizer trim, .standard v m, .sanitizer escape]⟩ (req, es) =
      ({ req with body := req.body.set fld (some (escape (trim (toStr (req.body.get fld))))) },
        es ++ if v (trim (toStr (req.body.get fld))) then []
              else [⟨fld.path, errorMsg m msg, some (trim (toStr (req.body.get fld)))⟩]) := by
  simp [Chain.run, runItem_sanitizer, runItem_standard, toStr]

theorem run_custom (fld msg) (v : Req → Option String → CustomResult) (req : Req) (es) :
    Chain.run ⟨fld, msg, false, [.sanitizer trim, .sanitizer escape, .custom v]⟩ (req, es) =
      ({ req with body := req.body.set fld (some (escape (trim (toStr (req.body.get fld))))) },
        es ++ customErrors fld msg (some (escape (trim (toStr (req.body.get fld)))))
          (v { req with body := req.body.set fld (some (escape (trim (toStr (req.body.get fld))))) }
            (some (escape (trim (toStr (req.body.get fld))))))) := by
  simp [Chain.run, runItem_sanitizer, runItem_custom, toStr]

theorem run_check_custom (fld msg) (p : String → Bool) (m)
    (v : Req → Option String → CustomResult) (req : Req) (es) :
    Chain.run ⟨fld, msg, false,
        [.sanitizer trim, .standard p m, .sanitizer escape, .custom v]⟩ (req, es) =
      ({ req with body := req.body.set fld (some (escape (trim (toStr (req.body.get fld))))) },
        (es ++ if p (trim (toStr (req.body.get fld))) then []
              else [⟨fld.path, errorMsg m msg, some (trim (toStr (req.body.get fld)))⟩]) ++
          customErrors fld msg (some (escape (trim (toStr (req.body.get fld)))))
          (v { req with body := req.body.set fld (some (escape (trim (toStr (req.body.get fld))))) }
            (some (escape (trim (toStr (req.body.get fld))))))) := by
  simp [Chain.run, runItem_sanitizer, runItem_custom, runItem_standard, toStr]

theorem toStr_some (v : String) : toStr (some v) = v := rfl

theorem errorMsg_chain (m : String) (h : m ≠ "") : errorMsg none (some m) = m := by
  simp [errorMsg, truthy, toStr, h]

theorem errorMsg_item (m : String) (c : Option String) (h : m ≠ "") :
    errorMsg (some m) c = m := by
  simp [errorMsg, truthy, toStr, h]

theorem createEmail_custom (user : Option User) (v : String) :
    customErrors .email none (some v)
      (if userAnd user (fun u => truthy u.facebookId) then
        .threw "An account with this email already exists using the Facebook sign in option"
      else if userAnd user (fun u => truthy u.googleId) then
        .threw "An account with this email already exists using the Google sign in option"
      else if user.isSome then
        .threw "An account with this email already exists"
      else .resolved true) = createEmailErrors user v := by
  cases user with
  | none => simp [userAnd, customErrors, createEmailErrors]
  | some u =>
    simp only [userAnd, createEmailErrors, Option.isSome_some, if_true]
    split
    · simp [customErrors, errorMsg_item, FieldName.path]
    · split <;> simp [customErrors, errorMsg_item, FieldName.path]

theorem match_custom (msg : String) (h : msg ≠ "") (c p : Option String) :
    customErrors .confirmPassword (some msg) c
      (if c ≠ p then .returned false else .returned true) = matchErrors msg c p := by
  by_cases hc : c = p <;> simp [hc, customErrors, matchErrors, errorMsg_chain _ h, FieldName.path]

theorem check_std (fld : FieldName) (msg : String) (h : msg ≠ "") (min : Nat) (v : Option String) :
    (if isLength min (trim (toStr v)) then []
      else [(⟨fld.path, errorMsg none (some msg), some (trim (toStr v))⟩ : ValidationError)]) =
      checkErrors fld.path msg min v := by
  simp [checkErrors, errorMsg_chain _ h]

theorem createUser_validation {σ} (S : Services σ) (w : σ) (req : Req) :
    runChains (createUserChains S w) req =
      ({ req with body :=
          ⟨some (sanitize req.body.firstName), some (sanitize req.body.lastName),
            some (sanitize req.body.email), some (sanitize req.body.password),
            some (sanitize req.body.confirmPassword)⟩ },
        checkErrors "firstName" "First name must be a minimum of 2 characters" 2 req.body.firstName ++
        checkErrors "lastName" "Last name must be a minimum of 2 characters" 2 req.body.lastName ++
        createEmailErrors (S.getUserByEmail w (sanitize req.body.email)) (sanitize req.body.email) ++
        checkErrors "password" "Password must be a minimum of 3 characters" 6 req.body.password ++
        matchErrors "Passwords must match" (some (sanitize req.body.confirmPassword))
          (some (sanitize req.body.password))) := by
  obtain ⟨⟨fn, ln, em, pw, cp⟩, uid⟩ := req
  simp only [runChains, createUserChains, List.foldl, run_check, run_custom, Body.get, Body.set,
    List.nil_append, toStr_some]
  rw [createEmail_custom, match_custom _ (by decide), check_std _ _ (by decide),
    check_std _ _ (by decide), check_std _ _ (by decide)]
  rfl

@[simp] theorem Body.set_get (b : Body) (f : FieldName) : b.set f (b.get f) = b := by
  cases f <;> rfl

theorem run_optional (fld msg stk) (req : Req) (es : List ValidationError) :
    Chain.run ⟨fld, msg, true, stk⟩ (req, es) =
      match req.body.get fld with
      | none => (req, es)
      | some _ => Chain.run ⟨fld, msg, false, stk⟩ (req, es) := by
  cases h : req.body.get fld with
  | none => exact run_optional_none fld msg stk (req, es) h
  | some x => exact run_optional_some fld msg stk (req, es) (by simp [h])

theorem Body.set_none_of_get (b : Body) (f : FieldName) (h : b.get f = none) :
    b.set f none = b := by
  rw [← h]; exact Body.set_get b f

theorem optCheck_std (fld : FieldName) (msg : String) (h : msg ≠ "") (min : Nat)
    (v : Option String) :
    (match v with
      | none => []
      | some x => if isLength min (trim x) then []
          else [(⟨fld.path, errorMsg none (some msg), some (trim x)⟩ : ValidationError)]) =
      optCheckErrors fld.path msg min v := by
  cases v <;> simp [optCheckErrors, checkErrors, errorMsg_chain _ h, toStr_some]

theorem editEmail_custom (user : Option User) (em : Option String) :
    (match em with
      | none => []
      | some x => customErrors .email none (some (sanitizeStr x))
          (if userAnd user (fun u => truthy u.facebookId) then
            .threw "You cannot change your email since it is linked to the Facebook sign in option"
          else if userAnd user (fun u => truthy u.googleId) then
            .threw "You cannot change your email since it is linked to the Google sign in option"
          else .resolved true)) = editEmailErrors user em := by
  cases em with
  | none => rfl
  | some x =>
    simp only [editEmailErrors]
    split
    · simp [customErrors, errorMsg_item, FieldName.path]
    · split <;> simp [customErrors, errorMsg_item, FieldName.path]

theorem editPassword_custom (user : Option User) (pw cp : Option String) :
    (match pw with
      | none => []
      | some x =>
        (if isLength 6 (trim x) then []
          else [(⟨FieldName.password.path,
            errorMsg (some "New password must be a minimum of 6 characters") none,
            some (trim x)⟩ : ValidationError)]) ++
        customErrors .password none (some (sanitizeStr x))
          (if userAnd user (fun u => truthy u.facebookId) then
            .threw "You cannot change your password since it is linked to the Facebook sign in option"
          else if userAnd user (fun u => truthy u.googleId) then
            .threw "You cannot change your password since it is linked to the Google sign in option"
          else if truthy (some (sanitizeStr x)) && !truthy cp then
            .threw "Confirm password is required when setting a new password"
          else .resolved true)) = editPasswordErrors user pw cp := by
  cases pw with
  | none => rfl
  | some x =>
    simp only [editPasswordErrors, checkErrors, toStr_some]
    rw [errorMsg_item _ _ (by decide)]
    congr 1
    split
    · simp [customErrors, errorMsg_item, FieldName.path]
    · split
      · simp [customErrors, errorMsg_item, FieldName.path]
      · split <;> simp [customErrors, errorMsg_item, FieldName.path]

theorem editConfirm_custom (pw cp : Option String) :
    (match cp with
      | none => []
      | some y => customErrors .confirmPassword (some "New passwords must match")
          (some (sanitizeStr y))
          (if some (sanitizeStr y) ≠ pw.map sanitizeStr then .returned false
            else .returned true)) = editConfirmErrors pw cp := by
  cases cp with
  | none => rfl
  | some y => simp only [editConfirmErrors]; exact match_custom _ (by decide) _ _

theorem run_check_opt (fld msg) (v : String → Bool) (m) (req : Req) (es) :
    Chain.run ⟨fld, msg, true, [.sanitizer trim, .standard v m, .sanitizer escape]⟩ (req, es) =
      ({ req with body := req.body.set fld ((req.body.get fld).map sanitizeStr) },
        es ++ match req.body.get fld with
          | none => []
          | some x => if v (trim x) then []
              else [⟨fld.path, errorMsg m msg, some (trim x)⟩]) := by
  rw [run_optional]
  cases h : req.body.get fld with
  | none => simp [h, Body.set_none_of_get _ _ h]
  | some x => simp [run_check, h, toStr_some, sanitizeStr]

theorem run_custom_opt (fld msg) (v : Req → Option String → CustomResult) (req : Req) (es) :
    Chain.run ⟨fld, msg, true, [.sanitizer trim, .sanitizer escape, .custom v]⟩ (req, es) =
      ({ req with body := req.body.set fld ((req.body.get fld).map sanitizeStr) },
        es ++ match req.body.get fld with
          | none => []
          | some x => customErrors fld msg (some (sanitizeStr x))
              (v { req with body := req.body.set fld (some (sanitizeStr x)) }
                (some (sanitizeStr x)))) := by
  rw [run_optional]
  cases h : req.body.get fld with
  | none => simp [h, Body.set_none_of_get _ _ h]
  | some x => simp [run_custom, h, toStr_some, sanitizeStr]

theorem run_check_custom_opt (fld msg) (p : String → Bool) (m)
    (v : Req → Option String → CustomResult) (req : Req) (es) :
    Chain.run ⟨fld, msg, true,
        [.sanitizer trim, .standard p m, .sanitizer escape, .custom v]⟩ (req, es) =
      ({ req with body := req.body.set fld ((req.body.get fld).map sanitizeStr) },
        es ++ match req.body.get fld with
          | none => []
          | some x =>
            (if p (trim x) then [] else [⟨fld.path, errorMsg m msg, some (trim x)⟩]) ++
            customErrors fld msg (some (sanitizeStr x))
              (v { req with body := req.body.set fld (some (sanitizeStr x)) }
                (some (sanitizeStr x)))) := by
  rw [run_optional]
  cases h : req.body.get fld with
  | none => simp [h, Body.set_none_of_get _ _ h]
  | some x => simp [run_check_custom, h, toStr_some, sanitizeStr]

theorem editUser_validation {σ} (S : Services σ) (w : σ) (req : Req) :
    runChains (editUserChains S w) req =
      ({ req with body :=
          ⟨req.body.firstName.map sanitizeStr, req.body.lastName.map sanitizeStr,
            req.body.email.map sanitizeStr, req.body.password.map sanitizeStr,
            req.body.confirmPassword.map sanitizeStr⟩ },
        optCheckErrors "firstName" "First name must be a minimum of 2 characters" 2
          req.body.firstName ++
        optCheckErrors "lastName" "Last name must be a minimum of 2 characters" 2
          req.body.lastName ++
        editEmailErrors (S.getUserById w req.userId) req.body.email ++
        editPasswordErrors (S.getUserById w req.userId) req.body.password
          req.body.confirmPassword ++
        editConfirmErrors req.body.password req.body.confirmPassword) := by
  obtain ⟨⟨fn, ln, em, pw, cp⟩, uid⟩ := req
  simp only [runChains, editUserChains, List.foldl, run_check_opt, run_custom_opt,
    run_check_custom_opt, Body.get, Body.set, List.nil_append]
  rw [editEmail_custom, editPassword_custom, editConfirm_custom, optCheck_std _ _ (by decide),
    optCheck_std _ _ (by decide)]
  rfl

theorem authEmail_custom (user : Option User) (v : String) :
    customErrors .email (some "Email does not exist") (some v)
      (if userAnd user (fun u => truthy u.googleId) then
        .threw "An account with this email already exists using the Google sign in option"
      else if userAnd user (fun u => truthy u.facebookId) then
        .threw "An account with this email already exists using the Facebook sign in option"
      else if !user.isSome then
        .threw "An account using this email does not exist"
      else .resolved true) = authEmailErrors user v := by
  cases user with
  | none => simp [userAnd, customErrors, authEmailErrors, errorMsg_item, FieldName.path]
  | some u =>
    simp only [userAnd, authEmailErrors, Option.isSome_some]
    split
    · simp [customErrors, errorMsg_item, FieldName.path]
    · split <;> simp [customErrors, errorMsg_item, FieldName.path]

theorem authPassword_custom {σ} (S : Services σ) (user : Option User) (v : String) :
    customErrors .password (some "Incorrect password") (some v)
      (match user with
        | none => .resolved false
        | some user =>
          if truthy user.facebookId then .resolved false
          else
            match bcryptCompare S v user.password with
            | .error message => .threw message
            | .ok isMatch =>
              if !isMatch then .threw "Incorrect password" else .resolved true) =
      authPasswordErrors S.compare user v := by
  cases user with
  | none => simp [customErrors, authPasswordErrors]
  | some u =>
    simp only [authPasswordErrors]
    split
    · simp [customErrors]
    · cases hp : u.password with
      | none => simp [bcryptCompare, customErrors, errorMsg_item, FieldName.path]
      | some h =>
        cases hc : S.compare v h <;>
          simp [bcryptCompare, customErrors, errorMsg_item, FieldName.path, hc]

theorem authenticateUser_validation {σ} (S : Services σ) (w : σ) (req : Req) :
    runChains (authenticateUserChains S w) req =
      ({ req with body :=
          { req.body with email := some (sanitize req.body.email)
                          password := some (sanitize req.body.password) } },
        authEmailErrors (S.getUserByEmail w (sanitize req.body.email)) (sanitize req.body.email) ++
        authPasswordErrors S.compare (S.getUserByEmail w (sanitize req.body.email))
          (sanitize req.body.password)) := by
  obtain ⟨⟨fn, ln, em, pw, cp⟩, uid⟩ := req
  simp only [runChains, authenticateUserChains, List.foldl, run_custom, Body.get, Body.set,
    List.nil_append, toStr_some]
  rw [authEmail_custom]
  exact congrArg (Prod.mk _) (congrArg (_ ++ ·) (authPassword_custom S _ _))

/-! ## The handlers behind the chains -/

theorem isEmpty_false_of_ne_nil {α : Type} (l : List α) (h : l ≠ []) : l.isEmpty = false := by
  cases l with
  | nil => exact absurd rfl h
  | cons a t => rfl

theorem createUserHandler_calls_nil_or {σ : Type} (S : Services σ) (w : σ) (req : Req)
    (errors : List ValidationError) (h : (createUserHandler S w req errors).calls ≠ []) :
    errors = [] := by
  by_contra hne
  apply h
  simp [createUserHandler, isEmpty_false_of_ne_nil _ hne]

theorem editUserHandler_calls_nil_or {σ : Type} (S : Services σ) (w : σ) (req : Req)
    (errors : List ValidationError) (h : (editUserHandler S w req errors).calls ≠ []) :
    errors = [] := by
  by_contra hne
  apply h
  simp [editUserHandler, isEmpty_false_of_ne_nil _ hne]

/-- C4 (no partial apply): when the validation error list of `createUser` or `editUser` is
non-empty, the handler responds 400 with the full list, makes no service call at all
(`bcrypt.hash`, `createUser`, `createOrUpdateProfile`, `editUser`) and leaves the world as it
was; a service call is made only when the error list is empty. -/
theorem no_partial_apply {σ : Type} (S : Services σ) (w : σ) (req : Req) :
    ((runChains (createUserChains S w) req).2 ≠ [] →
      (createUser S w req).response =
        some ⟨400, .errors (runChains (createUserChains S w) req).2⟩ ∧
      (createUser S w req).calls = [] ∧ (createUser S w req).world = w) ∧
    ((createUser S w req).calls ≠ [] → (runChains (createUserChains S w) req).2 = []) ∧
    ((runChains (editUserChains S w) req).2 ≠ [] →
      (editUser S w req).response =
        some ⟨400, .errors (runChains (editUserChains S w) req).2⟩ ∧
      (editUser S w req).calls = [] ∧ (editUser S w req).world = w) ∧
    ((editUser S w req).calls ≠ [] → (runChains (editUserChains S w) req).2 = []) := by
  refine ⟨?_, ?_, ?_, ?_⟩
  · intro h
    simp [createUser, createUserHandler, isEmpty_false_of_ne_nil _ h]
  · intro h
    exact createUserHandler_calls_nil_or S w _ _ h
  · intro h
    simp [editUser, editUserHandler, isEmpty_false_of_ne_nil _ h]
  · intro h
    exact editUserHandler_calls_nil_or S w _ _ h

/-- Witness for C4: a create request with a one-letter first name, and a valid one. -/
theorem no_partial_apply_witness :
    (runChains (createUserChains exampleServices []) shortNameReq).2 ≠ [] ∧
    (createUser exampleServices [] shortNameReq).response =
      some ⟨400, .errors [⟨"firstName", "First name must be a minimum of 2 characters", some "A"⟩]⟩ ∧
    (createUser exampleServices [] shortNameReq).calls = [] ∧
    (createUser exampleServices [] validCreateReq).calls ≠ [] ∧
    (runChains (createUserChains exampleServices []) validCreateReq).2 = [] ∧
    (runChains (editUserChains exampleServices []) shortNameReq).2 ≠ [] ∧
    (editUser exampleServices [] shortNameReq).calls = [] :=
  have h := no_partial_apply exampleServices [] shortNameReq
  have h1 := no_partial_apply exampleServices [] validCreateReq
  ⟨by decide, by decide, (h.1 (by decide)).2.1, by decide, h1.2.1 (by decide), by decide,
    (h.2.2.1 (by decide)).2.1⟩

/-! ## Provider-linked accounts cannot edit email or password -/

/-- C1: when the target account of an edit request has a truthy `facebookId` or `googleId`,
every supplied email field and every supplied password field (whatever its value) gets an
error with the provider-specific message (Facebook when `facebookId` is set, Google
otherwise) on that field, the response is 400 with the error list, and no service call, in
particular no `userServices.editUser`, is made. -/
theorem editUser_provider_linked_rejects {σ : Type} (S : Services σ) (w : σ) (req : Req)
    (u : User) (hu : S.getUserById w req.userId = some u)
    (hp : truthy u.facebookId = true ∨ truthy u.googleId = true) :
    (∀ x, req.body.email = some x →
      (⟨"email",
        if truthy u.facebookId then
          "You cannot change your email since it is linked to the Facebook sign in option"
        else "You cannot change your email since it is linked to the Google sign in option",
        some (escape (trim x))⟩ : ValidationError) ∈ (runChains (editUserChains S w) req).2) ∧
    (∀ x, req.body.password = some x →
      (⟨"password",
        if truthy u.facebookId then
          "You cannot change your password since it is linked to the Facebook sign in option"
        else "You cannot change your password since it is linked to the Google sign in option",
        some (escape (trim x))⟩ : ValidationError) ∈ (runChains (editUserChains S w) req).2) ∧
    (req.body.email ≠ none ∨ req.body.password ≠ none →
      (editUser S w req).response =
        some ⟨400, .errors (runChains (editUserChains S w) req).2⟩ ∧
      (editUser S w req).calls = [] ∧ (editUser S w req).world = w) := by
  have hmail : ∀ x, req.body.email = some x →
      (⟨"email",
        if truthy u.facebookId then
          "You cannot change your email since it is linked to the Facebook sign in option"
        else "You cannot change your email since it is linked to the Google sign in option",
        some (escape (trim x))⟩ : ValidationError) ∈ (runChains (editUserChains S w) req).2 := by
    intro x hx
    rw [editUser_validation]
    simp only [List.mem_append]
    refine Or.inl (Or.inl (Or.inr ?_))
    rcases hp with hf | hg
    · simp [editEmailErrors, hx, hu, userAnd, hf, sanitizeStr]
    · by_cases hf : truthy u.facebookId = true <;>
        simp [editEmailErrors, hx, hu, userAnd, hf, hg, sanitizeStr]
  have hpass : ∀ x, req.body.password = some x →
      (⟨"password",
        if truthy u.facebookId then
          "You cannot change your password since it is linked to the Facebook sign in option"
        else "You cannot change your password since it is linked to the Google sign in option",
        some (escape (trim x))⟩ : ValidationError) ∈ (runChains (editUserChains S w) req).2 := by
    intro x hx
    rw [editUser_validation]
    simp only [List.mem_append]
    refine Or.inl (Or.inr ?_)
    rcases hp with hf | hg
    · simp [editPasswordErrors, hx, hu, userAnd, hf, sanitizeStr]
    · by_cases hf : truthy u.facebookId = true <;>
        simp [editPasswordErrors, hx, hu, userAnd, hf, hg, sanitizeStr]
  refine ⟨hmail, hpass, ?_⟩
  intro hsup
  have hne : (runChains (editUserChains S w) req).2 ≠ [] := by
    rcases hsup with h | h
    · obtain ⟨x, hx⟩ := Option.ne_none_iff_exists'.mp h
      exact List.ne_nil_of_mem (hmail x hx)
    · obtain ⟨x, hx⟩ := Option.ne_none_iff_exists'.mp h
      exact List.ne_nil_of_mem (hpass x hx)
  have hemp : (runChains (editUserChains S w) req).2.isEmpty = false := by
    cases h : (runChains (editUserChains S w) req).2 with
    | nil => exact absurd h hne
    | cons a l => rfl
  simp [editUser, editUserHandler, hemp]

/-- Witness for C1: a Facebook-linked account, an edit request with an email and a password. -/
theorem editUser_provider_linked_rejects_witness :
    exampleServices.getUserById [exampleFacebookUser] 7 = some exampleFacebookUser ∧
    (truthy exampleFacebookUser.facebookId = true ∨ truthy exampleFacebookUser.googleId = true) ∧
    (⟨"email", "You cannot change your email since it is linked to the Facebook sign in option",
        some "new@x.com"⟩ : ValidationError) ∈
      (runChains (editUserChains exampleServices [exampleFacebookUser])
        ⟨⟨none, none, some " new@x.com", some "secret1", some "secret1"⟩, 7⟩).2 ∧
    (⟨"password",
        "You cannot change your password since it is linked to the Facebook sign in option",
        some "secret1"⟩ : ValidationError) ∈
      (runChains (editUserChains exampleServices [exampleFacebookUser])
        ⟨⟨none, none, some " new@x.com", some "secret1", some "secret1"⟩, 7⟩).2 ∧
    (editUser exampleServices [exampleFacebookUser]
        ⟨⟨none, none, some " new@x.com", some "secret1", some "secret1"⟩, 7⟩).calls = [] :=
  have h := editUser_provider_linked_rejects exampleServices [exampleFacebookUser]
    ⟨⟨none, none, some " new@x.com", some "secret1", some "secret1"⟩, 7⟩ exampleFacebookUser
    (by decide) (by decide)
  ⟨by decide, by decide, h.1 " new@x.com" rfl, h.2.1 "secret1" rfl,
    (h.2.2 (Or.inl (by decide))).2.1⟩

/-! ## createUser: when validation passes -/

theorem checkErrors_eq_nil (path msg : String) (min : Nat) (v : Option String) :
    checkErrors path msg min v = [] ↔ min ≤ validatorLength (trim (toStr v)) := by
  simp [checkErrors, isLength]

theorem createEmailErrors_eq_nil (user : Option User) (value : String) :
    createEmailErrors user value = [] ↔ user = none := by
  cases user <;> simp [createEmailErrors]

theorem matchErrors_eq_nil (msg : String) (c p : Option String) :
    matchErrors msg c p = [] ↔ c = p := by
  by_cases h : c = p <;> simp [matchErrors, h]

theorem filter_path_checkErrors (path msg : String) (min : Nat) (v : Option String)
    (q : String) (h : path ≠ q) :
    (checkErrors path msg min v).filter (fun e => e.path == q) = [] := by
  unfold checkErrors
  split <;> simp [h]

theorem filter_path_matchErrors (msg : String) (c p : Option String)
    (q : String) (h : "confirmPassword" ≠ q) :
    (matchErrors msg c p).filter (fun e => e.path == q) = [] := by
  unfold matchErrors
  split <;> simp [h]

/-- The error list of `createUser` is empty exactly when every rule passes. -/
theorem createUser_errors_nil_iff {σ : Type} (S : Services σ) (w : σ) (req : Req) :
    (runChains (createUserChains S w) req).2 = [] ↔
      2 ≤ validatorLength (trim (toStr req.body.firstName)) ∧
      2 ≤ validatorLength (trim (toStr req.body.lastName)) ∧
      6 ≤ validatorLength (trim (toStr req.body.password)) ∧
      escape (trim (toStr req.body.confirmPassword)) = escape (trim (toStr req.body.password)) ∧
      S.getUserByEmail w (escape (trim (toStr req.body.email))) = none := by
  rw [createUser_validation]
  simp only [List.append_eq_nil, checkErrors_eq_nil, createEmailErrors_eq_nil,
    matchErrors_eq_nil, sanitize, Option.some.injEq]
  tauto

/-- The validator's length is the number of code points that are not variation selectors. -/
theorem validatorLength_eq (str : String) :
    validatorLength str =
      str.data.length -
        (str.data.filter (fun c => c.toNat == 65039 || c.toNat == 65038)).length := by
  have h : ∀ l : List Char, (l.map (fun c => if 65536 ≤ c.toNat then 2 else 1)).sum =
      l.length + (l.filter (fun c => decide (65536 ≤ c.toNat))).length := by
    intro l
    induction l with
    | nil => rfl
    | cons c t ih =>
      by_cases hc : 65536 ≤ c.toNat <;> simp [hc, ih] <;> omega
  simp only [validatorLength, jsLength, h]
  omega

/-- C5: the error list of `createUser` is empty if and only if the trimmed first name and
last name have length at least 2 and the trimmed password has length at least 6 (length as
measured by the validator's `isLength`), the sanitized confirmPassword equals the sanitized
password, and no account is found for the sanitized email; when an account is found the one
error on the email field carries the Facebook message if `facebookId` is set, otherwise the
Google message if `googleId` is set, otherwise the plain message. The example request
(Al / Vo / a@x.com / secret1 / secret1) passes on the empty store and creates the account;
the same request sent again is answered 400 with an error on email. -/
theorem createUser_validation_ok_iff {σ : Type} (S : Services σ) (w : σ) (req : Req) :
    ((runChains (createUserChains S w) req).2 = [] ↔
      2 ≤ validatorLength (trim (toStr req.body.firstName)) ∧
      2 ≤ validatorLength (trim (toStr req.body.lastName)) ∧
      6 ≤ validatorLength (trim (toStr req.body.password)) ∧
      escape (trim (toStr req.body.confirmPassword)) = escape (trim (toStr req.body.password)) ∧
      S.getUserByEmail w (escape (trim (toStr req.body.email))) = none) ∧
    (∀ u, S.getUserByEmail w (escape (trim (toStr req.body.email))) = some u →
      (runChains (createUserChains S w) req).2.filter (fun e => e.path == "email") =
        [⟨"email",
          if truthy u.facebookId then
            "An account with this email already exists using the Facebook sign in option"
          else if truthy u.googleId then
            "An account with this email already exists using the Google sign in option"
          else "An account with this email already exists",
          some (escape (trim (toStr req.body.email)))⟩]) ∧
    (runChains (createUserChains exampleServices []) validCreateReq).2 = [] ∧
    (createUser exampleServices [] validCreateReq).response =
      some ⟨200, .newUser ⟨1, "Al", "Vo", "a@x.com", some (toyHash "secret1"), none, none⟩
        ⟨1, "a", "Default", true, 1⟩⟩ ∧
    (createUser exampleServices (createUser exampleServices [] validCreateReq).world
        validCreateReq).response =
      some ⟨400, .errors [⟨"email", "An account with this email already exists",
        some "a@x.com"⟩]⟩ := by
  refine ⟨?_, ?_, by decide, by decide, by decide⟩
  · exact createUser_errors_nil_iff S w req
  · intro u hu
    rw [createUser_validation]
    simp only [List.filter_append, sanitize, hu]
    rw [filter_path_checkErrors _ _ _ _ _ (by decide), filter_path_checkErrors _ _ _ _ _ (by decide),
      filter_path_checkErrors _ _ _ _ _ (by decide), filter_path_matchErrors _ _ _ _ (by decide)]
    simp [createEmailErrors]

/-- Witness for C5: a create request for the email of a Facebook-linked account. -/
theorem createUser_validation_ok_iff_witness :
    exampleServices.getUserByEmail [exampleFacebookUser] (escape (trim "fay@x.com")) =
      some exampleFacebookUser ∧
    (runChains (createUserChains exampleServices [exampleFacebookUser])
        ⟨⟨some "Al", some "Vo", some "fay@x.com", some "secret1", some "secret1"⟩, 1⟩).2.filter
      (fun e => e.path == "email") =
      [⟨"email", "An account with this email already exists using the Facebook sign in option",
        some "fay@x.com"⟩] :=
  ⟨by decide,
    (createUser_validation_ok_iff exampleServices [exampleFacebookUser]
      ⟨⟨some "Al", some "Vo", some "fay@x.com", some "secret1", some "secret1"⟩, 1⟩).2.1
      exampleFacebookUser (by decide)⟩

/-! ## authenticateUser: wrong password -/

/-- C6 (the code falls short of the claim): a sign-in with the email of an existing
Facebook-linked account, which has no password hash, and any password. The password
validator returns `false` from its `async` function (line 275) on a chain whose default
message is 'Incorrect password'; the runner adds no error for a promise that resolves, so
the error list holds the email error only and no 'Incorrect password' error on the password
field. The response is still 400 and `next()` is not called. -/
theorem authenticateUser_facebook_no_password_error :
    exampleServices.getUserByEmail [exampleFacebookOnlyUser] "fay@x.com" =
      some exampleFacebookOnlyUser ∧
    exampleFacebookOnlyUser.password = none ∧
    truthy exampleFacebookOnlyUser.facebookId = true ∧
    (runChains (authenticateUserChains exampleServices [exampleFacebookOnlyUser])
        wrongPasswordFacebookReq).2 =
      [⟨"email", "An account with this email already exists using the Facebook sign in option",
        some "fay@x.com"⟩] ∧
    (∀ e ∈ (runChains (authenticateUserChains exampleServices [exampleFacebookOnlyUser])
        wrongPasswordFacebookReq).2, e.path ≠ "password") ∧
    (⟨"password", "Incorrect password", some "wrong"⟩ : ValidationError) ∉
      (runChains (authenticateUserChains exampleServices [exampleFacebookOnlyUser])
        wrongPasswordFacebookReq).2 ∧
    (authenticateUser exampleServices [exampleFacebookOnlyUser]
        wrongPasswordFacebookReq).response =
      some ⟨400, .errors
        [⟨"email", "An account with this email already exists using the Facebook sign in option",
          some "fay@x.com"⟩]⟩ ∧
    (authenticateUser exampleServices [exampleFacebookOnlyUser]
        wrongPasswordFacebookReq).next = false := by
  decide

/-- The path of `authenticateUser` that does report a wrong password: when the supplied email
resolves to an account with a stored hash and the sanitized password does not verify against
it, the response is 400 with the error list and `next()` is not called; and when that
account has no `facebookId` the list contains the error 'Incorrect password' on the password
field. -/
theorem authenticateUser_wrong_password {σ : Type} (S : Services σ) (w : σ) (req : Req)
    (u : User) (h : String)
    (hu : S.getUserByEmail w (escape (trim (toStr req.body.email))) = some u)
    (hh : u.password = some h)
    (hv : S.compare (escape (trim (toStr req.body.password))) h = false) :
    (truthy u.facebookId = false →
      (⟨"password", "Incorrect password", some (escape (trim (toStr req.body.password)))⟩ :
        ValidationError) ∈ (runChains (authenticateUserChains S w) req).2) ∧
    (authenticateUser S w req).response =
      some ⟨400, .errors (runChains (authenticateUserChains S w) req).2⟩ ∧
    (authenticateUser S w req).next = false ∧
    (authenticateUser S w req).calls = [] := by
  have hpw : truthy u.facebookId = false →
      (⟨"password", "Incorrect password", some (escape (trim (toStr req.body.password)))⟩ :
        ValidationError) ∈ (runChains (authenticateUserChains S w) req).2 := by
    intro hf
    rw [authenticateUser_validation]
    simp [sanitize, hu, authPasswordErrors, hf, hh, hv]
  have hne : (runChains (authenticateUserChains S w) req).2 ≠ [] := by
    by_cases hf : truthy u.facebookId = true
    · rw [authenticateUser_validation]
      by_cases hg : truthy u.googleId = true <;>
        simp [sanitize, hu, authEmailErrors, hf, hg]
    · exact List.ne_nil_of_mem (hpw (by simpa using hf))
  refine ⟨hpw, ?_⟩
  simp [authenticateUser, authenticateUserHandler, isEmpty_false_of_ne_nil _ hne]

/-- A local account and a wrong password: the 'Incorrect password' error is reported. -/
theorem authenticateUser_wrong_password_witness :
    exampleServices.getUserByEmail [exampleLocalUser] "lo@x.com" = some exampleLocalUser ∧
    exampleLocalUser.password = some "#secret1" ∧
    exampleServices.compare "wrong" "#secret1" = false ∧
    (⟨"password", "Incorrect password", some "wrong"⟩ : ValidationError) ∈
      (runChains (authenticateUserChains exampleServices [exampleLocalUser])
        wrongPasswordLocalReq).2 ∧
    (authenticateUser exampleServices [exampleLocalUser] wrongPasswordLocalReq).next = false :=
  have h := authenticateUser_wrong_password exampleServices [exampleLocalUser]
    wrongPasswordLocalReq exampleLocalUser "#secret1" (by decide) (by decide) (by decide)
  ⟨by decide, by decide, by decide, h.1 (by decide), h.2.2.1⟩

/-! ## createUser twice for one email -/

/-- Counterexample to C7 as stated: two create requests whose emails are equal after
trimming and ignoring letter case, run one after the other on the in-memory store, both
succeed with status 200. -/
theorem createUser_case_variants_both_succeed :
    (trim " A@x.com ").data.map Char.toLower = (trim "a@x.com").data.map Char.toLower ∧
    (createUser exampleServices [] upperCaseEmailReq).response =
      some ⟨200, .newUser ⟨1, "Al", "Vo", "A@x.com", some "#secret1", none, none⟩
        ⟨1, "A", "Default", true, 1⟩⟩ ∧
    (createUser exampleServices (createUser exampleServices [] upperCaseEmailReq).world
        validCreateReq).response =
      some ⟨200, .newUser ⟨2, "Al", "Vo", "a@x.com", some "#secret1", none, none⟩
        ⟨2, "a", "Default", true, 2⟩⟩ := by
  decide

theorem find_append_new (w : List User) (u : User) (e : String) (hu : u.email = e)
    (h : w.find? (fun v => v.email == e) = none) :
    (w ++ [u]).find? (fun v => v.email == e) = some u := by
  rw [List.find?_append, h]
  simp [hu]

theorem createUser_run_valid (hash : String → String) (compare : String → String → Bool)
    (w : List User) (r : Req)
    (hf : 2 ≤ validatorLength (trim (toStr r.body.firstName)))
    (hl : 2 ≤ validatorLength (trim (toStr r.body.lastName)))
    (hp : 6 ≤ validatorLength (trim (toStr r.body.password)))
    (hc : escape (trim (toStr r.body.confirmPassword)) = escape (trim (toStr r.body.password)))
    (hfresh : (memoryStore hash compare).getUserByEmail w
      (escape (trim (toStr r.body.email))) = none) :
    (createUser (memoryStore hash compare) w r).response =
      some ⟨200, .newUser
        ⟨w.length + 1, escape (trim (toStr r.body.firstName)),
          escape (trim (toStr r.body.lastName)), escape (trim (toStr r.body.email)),
          some (hash (escape (trim (toStr r.body.password)))), none, none⟩
        ⟨w.length + 1, splitEmailHead (escape (trim (toStr r.body.email))), "Default", true,
          w.length + 1⟩⟩ ∧
    (createUser (memoryStore hash compare) w r).world =
      w ++ [⟨w.length + 1, escape (trim (toStr r.body.firstName)),
          escape (trim (toStr r.body.lastName)), escape (trim (toStr r.body.email)),
          some (hash (escape (trim (toStr r.body.password)))), none, none⟩] := by
  have hnil : (runChains (createUserChains (memoryStore hash compare) w) r).2 = [] :=
    (createUser_errors_nil_iff (memoryStore hash compare) w r).mpr ⟨hf, hl, hp, hc, hfresh⟩
  have hbody := createUser_validation (memoryStore hash compare) w r
  have h1 : (runChains (createUserChains (memoryStore hash compare) w) r).1 =
      { r with body :=
          ⟨some (sanitize r.body.firstName), some (sanitize r.body.lastName),
            some (sanitize r.body.email), some (sanitize r.body.password),
            some (sanitize r.body.confirmPassword)⟩ } := by rw [hbody]
  have hfind : w.find? (fun v => v.email == escape (trim (toStr r.body.email))) = none := hfresh
  have hex : ¬ ∃ x ∈ w, x.email = escape (trim (toStr r.body.email)) := by
    simpa [List.find?_eq_none] using hfind
  simp only [createUser, hnil, h1]
  simp [createUserHandler, memoryStore, sanitize, toStr_some, hex]

theorem createUser_run_taken (hash : String → String) (compare : String → String → Bool)
    (w : List User) (r : Req) (u : User)
    (hf : 2 ≤ validatorLength (trim (toStr r.body.firstName)))
    (hl : 2 ≤ validatorLength (trim (toStr r.body.lastName)))
    (hp : 6 ≤ validatorLength (trim (toStr r.body.password)))
    (hc : escape (trim (toStr r.body.confirmPassword)) = escape (trim (toStr r.body.password)))
    (hu : (memoryStore hash compare).getUserByEmail w
      (escape (trim (toStr r.body.email))) = some u)
    (hfb : truthy u.facebookId = false) (hg : truthy u.googleId = false) :
    (createUser (memoryStore hash compare) w r).response =
      some ⟨400, .errors [⟨"email", "An account with this email already exists",
        some (escape (trim (toStr r.body.email)))⟩]⟩ ∧
    (createUser (memoryStore hash compare) w r).world = w ∧
    (createUser (memoryStore hash compare) w r).calls = [] := by
  have herr : (runChains (createUserChains (memoryStore hash compare) w) r).2 =
      [⟨"email", "An account with this email already exists",
        some (escape (trim (toStr r.body.email)))⟩] := by
    rw [createUser_validation]
    have e1 := (checkErrors_eq_nil "firstName" "First name must be a minimum of 2 characters" 2
      r.body.firstName).mpr hf
    have e2 := (checkErrors_eq_nil "lastName" "Last name must be a minimum of 2 characters" 2
      r.body.lastName).mpr hl
    have e3 := (checkErrors_eq_nil "password" "Password must be a minimum of 3 characters" 6
      r.body.password).mpr hp
    have e4 := (matchErrors_eq_nil "Passwords must match" (some (sanitize r.body.confirmPassword))
      (some (sanitize r.body.password))).mpr (by simp [sanitize, hc])
    rw [e1, e2, e3, e4]
    simp only [List.nil_append, List.append_nil, sanitize, hu]
    simp [createEmailErrors, hfb, hg]
  simp [createUser, createUserHandler, herr]

/-- C7, amended: for two create requests with valid other fields whose emails are equal
after trimming (letter case is significant), run one after the other on a store that looks
accounts up by the exact email string and holds no account for that email, the first
creates the account (status 200) and the second is answered 400 with the single error
'An account with this email already exists' on the email field, without any service call. -/
theorem createUser_same_email_twice (hash : String → String)
    (compare : String → String → Bool) (w : List User) (r1 r2 : Req)
    (hf1 : 2 ≤ validatorLength (trim (toStr r1.body.firstName)))
    (hl1 : 2 ≤ validatorLength (trim (toStr r1.body.lastName)))
    (hp1 : 6 ≤ validatorLength (trim (toStr r1.body.password)))
    (hc1 : escape (trim (toStr r1.body.confirmPassword)) =
      escape (trim (toStr r1.body.password)))
    (hf2 : 2 ≤ validatorLength (trim (toStr r2.body.firstName)))
    (hl2 : 2 ≤ validatorLength (trim (toStr r2.body.lastName)))
    (hp2 : 6 ≤ validatorLength (trim (toStr r2.body.password)))
    (hc2 : escape (trim (toStr r2.body.confirmPassword)) =
      escape (trim (toStr r2.body.password)))
    (hsame : trim (toStr r1.body.email) = trim (toStr r2.body.email))
    (hfresh : (memoryStore hash compare).getUserByEmail w
      (escape (trim (toStr r1.body.email))) = none) :
    (createUser (memoryStore hash compare) w r1).response =
      some ⟨200, .newUser
        ⟨w.length + 1, escape (trim (toStr r1.body.firstName)),
          escape (trim (toStr r1.body.lastName)), escape (trim (toStr r1.body.email)),
          some (hash (escape (trim (toStr r1.body.password)))), none, none⟩
        ⟨w.length + 1, splitEmailHead (escape (trim (toStr r1.body.email))), "Default", true,
          w.length + 1⟩⟩ ∧
    (createUser (memoryStore hash compare) w r1).world =
      w ++ [⟨w.length + 1, escape (trim (toStr r1.body.firstName)),
          escape (trim (toStr r1.body.lastName)), escape (trim (toStr r1.body.email)),
          some (hash (escape (trim (toStr r1.body.password)))), none, none⟩] ∧
    (createUser (memoryStore hash compare)
        (createUser (memoryStore hash compare) w r1).world r2).response =
      some ⟨400, .errors [⟨"email", "An account with this email already exists",
        some (escape (trim (toStr r2.body.email)))⟩]⟩ ∧
    (createUser (memoryStore hash compare)
        (createUser (memoryStore hash compare) w r1).world r2).world =
      (createUser (memoryStore hash compare) w r1).world ∧
    (createUser (memoryStore hash compare)
        (createUser (memoryStore hash compare) w r1).world r2).calls = [] := by
  obtain ⟨hr, hw⟩ := createUser_run_valid hash compare w r1 hf1 hl1 hp1 hc1 hfresh
  refine ⟨hr, hw, ?_⟩
  rw [hw]
  refine createUser_run_taken hash compare _ r2
    ⟨w.length + 1, escape (trim (toStr r1.body.firstName)),
      escape (trim (toStr r1.body.lastName)), escape (trim (toStr r1.body.email)),
      some (hash (escape (trim (toStr r1.body.password)))), none, none⟩
    hf2 hl2 hp2 hc2 ?_ rfl rfl
  rw [← hsame]
  exact find_append_new w _ _ rfl hfresh

/-- Witness for C7: the example request, then a request for the same email with blanks
around it. -/
theorem createUser_same_email_twice_witness :
    trim (toStr validCreateReq.body.email) = trim (toStr (some "  a@x.com ")) ∧
    (createUser exampleServices [] validCreateReq).world =
      [⟨1, "Al", "Vo", "a@x.com", some "#secret1", none, none⟩] ∧
    (createUser exampleServices (createUser exampleServices [] validCreateReq).world
        ⟨⟨some "Bo", some "Li", some "  a@x.com ", some "hunter22", some "hunter22"⟩, 2⟩).response =
      some ⟨400, .errors [⟨"email", "An account with this email already exists",
        some "a@x.com"⟩]⟩ :=
  have h := createUser_same_email_twice toyHash toyCompare [] validCreateReq
    ⟨⟨some "Bo", some "Li", some "  a@x.com ", some "hunter22", some "hunter22"⟩, 2⟩
    (by decide) (by decide) (by decide) (by decide) (by decide) (by decide) (by decide)
    (by decide) (by decide) (by decide)
  ⟨by decide, h.2.1, h.2.2.1⟩

/-! ## commentController: likes and notifications -/

/-- Counterexample to C2 as stated: `likeComment` succeeds, the notification write then
throws, and the handler answers 500 with the error's message, not 200. -/
theorem likeComment_notification_failure_is_500 :
    (exampleCommentServices true).likeComment exampleCommentWorld 3 9 =
      .ok (⟨5, 1⟩, ⟨[(3, 5)], [(3, 9)], []⟩) ∧
    (exampleCommentServices true).createCommentLikeNotification ⟨[(3, 5)], [(3, 9)], []⟩ 9 5 1 =
      .error "notification store unavailable" ∧
    (likeComment (exampleCommentServices true) exampleCommentWorld ⟨0, 0, 3, 9⟩).status = 500 ∧
    (likeComment (exampleCommentServices true) exampleCommentWorld ⟨0, 0, 3, 9⟩).body =
      .error "notification store unavailable" := by
  decide

/-- C2, amended: when `commentServices.likeComment` succeeds and
`createCommentLikeNotification` then throws, the handler answers 500 with the thrown
message as `error`; the world is the one the like left behind (the like is not undone). -/
theorem likeComment_notification_failure {σ : Type} (C : CommentServices σ) (w : σ)
    (req : CommentReq) (r : LikeResult) (w1 : σ) (message : String)
    (hl : C.likeComment w req.id req.activeId = .ok (r, w1))
    (hn : C.createCommentLikeNotification w1 req.activeId r.commentProfileId r.commentLikeId =
      .error message) :
    (likeComment C w req).status = 500 ∧
    (likeComment C w req).body = .error message ∧
    (likeComment C w req).world = w1 := by
  simp [likeComment, hl, hn]

/-- Witness for C2: profile 9 likes comment 3 while the notification store is down. -/
theorem likeComment_notification_failure_witness :
    (likeComment (exampleCommentServices true) exampleCommentWorld ⟨0, 0, 3, 9⟩).status = 500 ∧
    (likeComment (exampleCommentServices true) exampleCommentWorld ⟨0, 0, 3, 9⟩).body =
      .error "notification store unavailable" ∧
    (likeComment (exampleCommentServices true) exampleCommentWorld ⟨0, 0, 3, 9⟩).world =
      ⟨[(3, 5)], [(3, 9)], []⟩ :=
  likeComment_notification_failure (exampleCommentServices true) exampleCommentWorld
    ⟨0, 0, 3, 9⟩ ⟨5, 1⟩ ⟨[(3, 5)], [(3, 9)], []⟩ "notification store unavailable"
    (by decide) (by decide)

/-- Counterexample to C3 as stated: profile 5 likes its own comment 3 and the handler calls
`createCommentLikeNotification(5, 5, 1)`. -/
theorem likeComment_own_comment_calls_notification :
    (exampleCommentServices false).likeComment exampleCommentWorld 3 5 =
      .ok (⟨5, 1⟩, ⟨[(3, 5)], [(3, 5)], []⟩) ∧
    CommentCall.createCommentLikeNotification 5 5 1 ∈
      (likeComment (exampleCommentServices false) exampleCommentWorld ⟨0, 0, 3, 5⟩).calls := by
  decide

/-- C3, amended: whenever `commentServices.likeComment` succeeds, the handler calls
`createCommentLikeNotification(activeId, comment.profileId, commentLike.id)` exactly once,
right after the like, whether or not the acting profile is the comment's author. -/
theorem likeComment_always_calls_notification {σ : Type} (C : CommentServices σ) (w : σ)
    (req : CommentReq) (r : LikeResult) (w1 : σ)
    (hl : C.likeComment w req.id req.activeId = .ok (r, w1)) :
    (likeComment C w req).calls =
      [.likeComment req.id req.activeId,
        .createCommentLikeNotification req.activeId r.commentProfileId r.commentLikeId] := by
  simp only [likeComment, hl]
  split <;> rfl

/-- Witness for C3: profile 5 likes its own comment 3. -/
theorem likeComment_always_calls_notification_witness :
    (likeComment (exampleCommentServices false) exampleCommentWorld ⟨0, 0, 3, 5⟩).calls =
      [.likeComment 3 5, .createCommentLikeNotification 5 5 1] :=
  likeComment_always_calls_notification (exampleCommentServices false) exampleCommentWorld
    ⟨0, 0, 3, 5⟩ ⟨5, 1⟩ ⟨[(3, 5)], [(3, 5)], []⟩ (by decide)

/-- C9: in `likeComment`, when the like throws the only call is the like and the answer is
500; every call of the notification service in `likeComment` comes right after a like
that succeeded in the same request and carries the acting profile, the comment's author and
the like id that call returned; `unlikeComment`, `deleteComment` and `getComments` never
call the notification service. -/
theorem notification_only_after_like {σ : Type} (C : CommentServices σ) (w : σ)
    (req : CommentReq) :
    (∀ message, C.likeComment w req.id req.activeId = .error message →
      (likeComment C w req).calls = [.likeComment req.id req.activeId] ∧
      (likeComment C w req).status = 500 ∧
      (likeComment C w req).body = .error message ∧
      (likeComment C w req).world = w) ∧
    (∀ c ∈ (likeComment C w req).calls, c.isNotification = true →
      ∃ r w1, C.likeComment w req.id req.activeId = .ok (r, w1) ∧
        c = .createCommentLikeNotification req.activeId r.commentProfileId r.commentLikeId ∧
        (likeComment C w req).calls = [.likeComment req.id req.activeId, c]) ∧
    (∀ c ∈ (unlikeComment C w req).calls, c.isNotification = false) ∧
    (∀ c ∈ (deleteComment C w req).calls, c.isNotification = false) ∧
    (∀ c ∈ (getComments C w req).calls, c.isNotification = false) := by
  refine ⟨?_, ?_, ?_, ?_, ?_⟩
  · intro message h
    simp [likeComment, h]
  · intro c hc hn
    cases h : C.likeComment w req.id req.activeId with
    | error message =>
      simp [likeComment, h] at hc
      subst hc
      simp [CommentCall.isNotification] at hn
    | ok p =>
      obtain ⟨r, w1⟩ := p
      have hcalls : (likeComment C w req).calls = [.likeComment req.id req.activeId, .createCommentLikeNotification req.activeId r.commentProfileId r.commentLikeId] := by
        simp only [likeComment, h]
        split <;> rfl
      rw [hcalls] at hc
      simp at hc
      rcases hc with hc | hc
      · subst hc
        simp [CommentCall.isNotification] at hn
      · exact ⟨r, w1, rfl, hc, by rw [hcalls, hc]⟩
  · intro c hc
    unfold unlikeComment at hc
    split at hc <;> simp at hc <;> subst hc <;> rfl
  · intro c hc
    unfold deleteComment at hc
    split at hc <;> simp at hc <;> subst hc <;> rfl
  · intro c hc
    unfold getComments at hc
    split at hc <;> simp at hc <;> subst hc <;> rfl

/-- Witness for C9: a like of an unknown comment, and a like of comment 3 by profile 9. -/
theorem notification_only_after_like_witness :
    (exampleCommentServices false).likeComment exampleCommentWorld 4 9 =
      .error "No Comment found" ∧
    (likeComment (exampleCommentServices false) exampleCommentWorld ⟨0, 0, 4, 9⟩).calls =
      [.likeComment 4 9] ∧
    (likeComment (exampleCommentServices false) exampleCommentWorld ⟨0, 0, 4, 9⟩).status = 500 ∧
    (∃ r w1, (exampleCommentServices false).likeComment exampleCommentWorld 3 9 = .ok (r, w1) ∧
      CommentCall.createCommentLikeNotification 9 5 1 =
        .createCommentLikeNotification 9 r.commentProfileId r.commentLikeId ∧
      (likeComment (exampleCommentServices false) exampleCommentWorld ⟨0, 0, 3, 9⟩).calls =
        [.likeComment 3 9, .createCommentLikeNotification 9 5 1]) :=
  have h := notification_only_after_like (exampleCommentServices false) exampleCommentWorld
    ⟨0, 0, 4, 9⟩
  have h1 := notification_only_after_like (exampleCommentServices false) exampleCommentWorld
    ⟨0, 0, 3, 9⟩
  ⟨by decide, (h.1 "No Comment found" (by decide)).1, (h.1 "No Comment found" (by decide)).2.1,
    h1.2.1 (.createCommentLikeNotification 9 5 1) (by decide) rfl⟩

/-! ## editUser: confirmPassword required versus mismatch -/

/-- Counterexample to C10 as stated, on a local account: a non-empty password of blanks
without confirmPassword gets the length error only, not the 'required' error; and a
password with an empty confirmPassword field gets both the 'required' error and the
mismatch error. -/
theorem editUser_confirm_errors_overlap :
    exampleServices.getUserById [exampleLocalUser] 8 = some exampleLocalUser ∧
    (runChains (editUserChains exampleServices [exampleLocalUser]) blankPasswordReq).2 =
      [⟨"password", "New password must be a minimum of 6 characters", some ""⟩] ∧
    (runChains (editUserChains exampleServices [exampleLocalUser]) emptyConfirmReq).2 =
      [⟨"password", "Confirm password is required when setting a new password", some "secret1"⟩,
       ⟨"confirmPassword", "New passwords must match", some ""⟩] := by
  decide

theorem replaceAll_data_ne_nil (c : Char) (rep : String) (str : String)
    (hrep : rep.data ≠ []) (h : str.data ≠ []) : (replaceAll c rep str).data ≠ [] := by
  unfold replaceAll
  cases hs : str.data with
  | nil => exact absurd hs h
  | cons d t =>
    simp only [List.flatMap_cons]
    by_cases hd : d = c
    · simp [hd, hrep]
    · simp [hd]

theorem escape_data_ne_nil (str : String) (h : str.data ≠ []) : (escape str).data ≠ [] := by
  unfold escape
  repeat' apply replaceAll_data_ne_nil
  all_goals first | exact h | decide

theorem string_ne_empty_iff (s : String) : s ≠ "" ↔ s.data ≠ [] := by
  constructor
  · intro h hd
    apply h
    cases s
    simp_all
  · intro h hs
    apply h
    rw [hs]

theorem truthy_escape_trim (x : String) (h : trim x ≠ "") :
    truthy (some (escape (trim x))) = true := by
  have h1 := escape_data_ne_nil (trim x) ((string_ne_empty_iff _).mp h)
  have h2 := (string_ne_empty_iff _).mpr h1
  simp [truthy, h2]


theorem msg_of_mem_optCheckErrors (path msg : String) (min : Nat) (v : Option String)
    (e : ValidationError) (h : e ∈ optCheckErrors path msg min v) : e.msg = msg := by
  cases v with
  | none => simp [optCheckErrors] at h
  | some x =>
    simp only [optCheckErrors, checkErrors] at h
    split at h
    · simp at h
    · simp at h; rw [h]

theorem msg_of_mem_editEmailErrors (user : Option User) (email : Option String)
    (e : ValidationError) (h : e ∈ editEmailErrors user email) :
    e.msg = "You cannot change your email since it is linked to the Facebook sign in option" ∨
    e.msg = "You cannot change your email since it is linked to the Google sign in option" := by
  cases email with
  | none => simp [editEmailErrors] at h
  | some x =>
    simp only [editEmailErrors] at h
    split at h
    · simp at h; rw [h]; exact Or.inl rfl
    · split at h
      · simp at h; rw [h]; exact Or.inr rfl
      · simp at h

theorem msg_of_mem_editPasswordErrors (user : Option User) (pw cp : Option String)
    (e : ValidationError) (h : e ∈ editPasswordErrors user pw cp) :
    e.msg = "New password must be a minimum of 6 characters" ∨
    e.msg = "You cannot change your password since it is linked to the Facebook sign in option" ∨
    e.msg = "You cannot change your password since it is linked to the Google sign in option" ∨
    (e.msg = "Confirm password is required when setting a new password" ∧
      truthy cp = false) := by
  cases pw with
  | none => simp [editPasswordErrors] at h
  | some x =>
    simp only [editPasswordErrors, List.mem_append] at h
    rcases h with h | h
    · simp only [checkErrors] at h
      split at h
      · simp at h
      · simp at h; rw [h]; exact Or.inl rfl
    · split at h
      · simp at h; rw [h]; exact Or.inr (Or.inl rfl)
      · split at h
        · simp at h; rw [h]; exact Or.inr (Or.inr (Or.inl rfl))
        · split at h
          · rename_i hc
            simp at h; rw [h]
            simp at hc
            exact Or.inr (Or.inr (Or.inr ⟨rfl, hc.2⟩))
          · simp at h

theorem msg_of_mem_editConfirmErrors (pw cp : Option String)
    (e : ValidationError) (h : e ∈ editConfirmErrors pw cp) :
    e.msg = "New passwords must match" ∧ cp ≠ none := by
  cases cp with
  | none => simp [editConfirmErrors] at h
  | some y =>
    simp only [editConfirmErrors, matchErrors] at h
    split at h
    · simp at h
    · simp at h; rw [h]; exact ⟨rfl, by simp⟩

/-- C10, amended: on a local account, an edit request whose password is non-empty after
trimming and that has no confirmPassword field gets the error 'Confirm password is required
when setting a new password' on password and no 'New passwords must match' error; an edit
request that supplies a password and a non-empty confirmPassword whose sanitized values
differ gets 'New passwords must match' on confirmPassword and no 'required' error. -/
theorem editUser_confirm_required_vs_mismatch {σ : Type} (S : Services σ) (w : σ)
    (req : Req) :
    (∀ u x, S.getUserById w req.userId = some u →
      truthy u.facebookId = false → truthy u.googleId = false →
      req.body.password = some x → trim x ≠ "" → req.body.confirmPassword = none →
      (⟨"password", "Confirm password is required when setting a new password",
          some (escape (trim x))⟩ : ValidationError) ∈
        (runChains (editUserChains S w) req).2 ∧
      ∀ e ∈ (runChains (editUserChains S w) req).2, e.msg ≠ "New passwords must match") ∧
    (∀ x y, req.body.password = some x → req.body.confirmPassword = some y → y ≠ "" →
      escape (trim y) ≠ escape (trim x) →
      (⟨"confirmPassword", "New passwords must match", some (escape (trim y))⟩ :
          ValidationError) ∈ (runChains (editUserChains S w) req).2 ∧
      ∀ e ∈ (runChains (editUserChains S w) req).2,
        e.msg ≠ "Confirm password is required when setting a new password") := by
  constructor
  · intro u x hu hf hg hp hx hc
    rw [editUser_validation]
    constructor
    · simp only [List.mem_append]
      refine Or.inl (Or.inr ?_)
      have ht := truthy_escape_trim x hx
      have hn : truthy none = false := rfl
      simp only [editPasswordErrors, hp, hu, userAnd, hf, hg, hc, sanitizeStr, ht, hn,
        List.mem_append]
      refine Or.inr ?_
      simp
    · intro e he
      simp only [List.mem_append] at he
      rcases he with (((he | he) | he) | he) | he
      · rw [msg_of_mem_optCheckErrors _ _ _ _ _ he]; decide
      · rw [msg_of_mem_optCheckErrors _ _ _ _ _ he]; decide
      · rcases msg_of_mem_editEmailErrors _ _ _ he with h | h <;> rw [h] <;> decide
      · rcases msg_of_mem_editPasswordErrors _ _ _ _ he with h | h | h | h
        · rw [h]; decide
        · rw [h]; decide
        · rw [h]; decide
        · rw [h.1]; decide
      · exact absurd hc (msg_of_mem_editConfirmErrors _ _ _ he).2
  · intro x y hp hc hy hne
    rw [editUser_validation]
    constructor
    · simp only [List.mem_append]
      refine Or.inr ?_
      simp [editConfirmErrors, matchErrors, hp, hc, sanitizeStr, hne]
    · intro e he
      simp only [List.mem_append] at he
      rcases he with (((he | he) | he) | he) | he
      · rw [msg_of_mem_optCheckErrors _ _ _ _ _ he]; decide
      · rw [msg_of_mem_optCheckErrors _ _ _ _ _ he]; decide
      · rcases msg_of_mem_editEmailErrors _ _ _ he with h | h <;> rw [h] <;> decide
      · rcases msg_of_mem_editPasswordErrors _ _ _ _ he with h | h | h | h
        · rw [h]; decide
        · rw [h]; decide
        · rw [h]; decide
        · exfalso
          have := h.2
          simp [hc, truthy, hy] at this
      · rw [(msg_of_mem_editConfirmErrors _ _ _ he).1]; decide

/-- Witness for C10: a password alone, and a password with a different confirmPassword. -/
theorem editUser_confirm_required_vs_mismatch_witness :
    ((⟨"password", "Confirm password is required when setting a new password",
          some "secret1"⟩ : ValidationError) ∈
        (runChains (editUserChains exampleServices [exampleLocalUser])
          ⟨⟨none, none, none, some " secret1", none⟩, 8⟩).2 ∧
      ∀ e ∈ (runChains (editUserChains exampleServices [exampleLocalUser])
          ⟨⟨none, none, none, some " secret1", none⟩, 8⟩).2, e.msg ≠ "New passwords must match") ∧
    ((⟨"confirmPassword", "New passwords must match", some "secret2"⟩ : ValidationError) ∈
        (runChains (editUserChains exampleServices [exampleLocalUser])
          ⟨⟨none, none, none, some "secret1", some "secret2"⟩, 8⟩).2 ∧
      ∀ e ∈ (runChains (editUserChains exampleServices [exampleLocalUser])
          ⟨⟨none, none, none, some "secret1", some "secret2"⟩, 8⟩).2,
        e.msg ≠ "Confirm password is required when setting a new password") :=
  ⟨(editUser_confirm_required_vs_mismatch exampleServices [exampleLocalUser]
      ⟨⟨none, none, none, some " secret1", none⟩, 8⟩).1 exampleLocalUser " secret1"
      (by decide) (by decide) (by decide) rfl (by decide) rfl,
    (editUser_confirm_required_vs_mismatch exampleServices [exampleLocalUser]
      ⟨⟨none, none, none, some "secret1", some "secret2"⟩, 8⟩).2 "secret1" "secret2"
      rfl rfl (by decide) (by decide)⟩

/-! ## Guest credentials chain into authenticateUser -/

theorem dropWhile_eq_self_of_all_false {α : Type} (p : α → Bool) (l : List α)
    (h : ∀ a ∈ l, p a = false) : l.dropWhile p = l := by
  cases l with
  | nil => rfl
  | cons a t => simp [List.dropWhile, h a (List.mem_cons_self a t)]

theorem trim_eq_self (str : String) (h : ∀ c ∈ str.data, isJsWhitespace c = false) :
    trim str = str := by
  have h1 : str.data.dropWhile isJsWhitespace = str.data :=
    dropWhile_eq_self_of_all_false _ _ h
  have h2 : str.data.reverse.dropWhile isJsWhitespace = str.data.reverse :=
    dropWhile_eq_self_of_all_false _ _ (fun c hc => h c (List.mem_reverse.mp hc))
  simp only [trim, ltrim, rtrim, h1, h2, List.reverse_reverse]

theorem replaceAll_eq_self (c : Char) (rep : String) (str : String)
    (h : ∀ d ∈ str.data, d ≠ c) : replaceAll c rep str = str := by
  have : ∀ l : List Char, (∀ d ∈ l, d ≠ c) →
      l.flatMap (fun d => if d = c then rep.data else [d]) = l := by
    intro l hl
    induction l with
    | nil => rfl
    | cons a t ih =>
      have ha : a ≠ c := hl a (List.mem_cons_self a t)
      have ht := ih (fun d hd => hl d (List.mem_cons_of_mem a hd))
      simp only [List.flatMap_cons, ha, if_false, ht]
      rfl
  simp only [replaceAll, this _ h]

theorem escape_eq_self (str : String) (h : ∀ c ∈ str.data, isPlainChar c = true) :
    escape str = str := by
  have hp : ∀ c ∈ str.data, c ≠ Char.ofNat 38 ∧ c ≠ Char.ofNat 34 ∧ c ≠ Char.ofNat 39 ∧
      c ≠ Char.ofNat 60 ∧ c ≠ Char.ofNat 62 ∧ c ≠ Char.ofNat 47 ∧ c ≠ Char.ofNat 92 ∧
      c ≠ Char.ofNat 96 := by
    intro c hc
    have := h c hc
    simp only [isPlainChar, Bool.and_eq_true, bne_iff_ne] at this
    tauto
  unfold escape
  rw [replaceAll_eq_self (Char.ofNat 38) _ str (fun d hd => (hp d hd).1),
    replaceAll_eq_self (Char.ofNat 34) _ str (fun d hd => (hp d hd).2.1),
    replaceAll_eq_self (Char.ofNat 39) _ str (fun d hd => (hp d hd).2.2.1),
    replaceAll_eq_self (Char.ofNat 60) _ str (fun d hd => (hp d hd).2.2.2.1),
    replaceAll_eq_self (Char.ofNat 62) _ str (fun d hd => (hp d hd).2.2.2.2.1),
    replaceAll_eq_self (Char.ofNat 47) _ str (fun d hd => (hp d hd).2.2.2.2.2.1),
    replaceAll_eq_self (Char.ofNat 92) _ str (fun d hd => (hp d hd).2.2.2.2.2.2.1),
    replaceAll_eq_self (Char.ofNat 96) _ str (fun d hd => (hp d hd).2.2.2.2.2.2.2)]

theorem sanitize_eq_self (str : String) (h : ∀ c ∈ str.data, isPlainChar c = true) :
    escape (trim str) = str := by
  have hw : ∀ c ∈ str.data, isJsWhitespace c = false := by
    intro c hc
    have := h c hc
    simp only [isPlainChar, Bool.and_eq_true, Bool.not_eq_true'] at this
    tauto
  rw [trim_eq_self str hw, escape_eq_self str h]

theorem isPlainChar_of_digit (c : Char) (h1 : 48 ≤ c.toNat) (h2 : c.toNat ≤ 57) :
    isPlainChar c = true := by
  have hne : ∀ k : Nat, (Char.ofNat k).toNat < 48 ∨ 57 < (Char.ofNat k).toNat →
      c ≠ Char.ofNat k := by
    intro k hk hc
    rw [hc] at h1 h2
    omega
  have hw : isJsWhitespace c = false := by
    simp only [isJsWhitespace, Bool.or_eq_false_iff, Bool.and_eq_false_iff, beq_eq_false_iff_ne,
      decide_eq_false_iff_not]
    omega
  simp only [isPlainChar, hw, Bool.not_false, Bool.true_and, Bool.and_eq_true, bne_iff_ne]
  refine ⟨⟨⟨⟨⟨⟨⟨?_, ?_⟩, ?_⟩, ?_⟩, ?_⟩, ?_⟩, ?_⟩, ?_⟩ <;> exact hne _ (by decide)

theorem plain_of_isGuestSuffix (s : String) (h : isGuestSuffix s = true) :
    ∀ c ∈ s.data, isPlainChar c = true := by
  intro c hc
  simp only [isGuestSuffix, Bool.and_eq_true, List.all_eq_true, decide_eq_true_eq] at h
  have := h.2 c hc
  exact isPlainChar_of_digit c this.1 this.2

theorem plain_guest_email (s : String) (h : isGuestSuffix s = true) :
    ∀ c ∈ ("Human" ++ s ++ "@pawprint.com").data, isPlainChar c = true := by
  intro c hc
  simp only [String.data_append, List.mem_append] at hc
  rcases hc with (hc | hc) | hc
  · revert c; decide
  · exact plain_of_isGuestSuffix s h c hc
  · revert c; decide


/-- The guest handler followed by the authenticate chains, when both service calls succeed
and the store hands back the account it was given. -/
theorem guest_round_trip_core {σ : Type} (S : Services σ) (w : σ) (req : Req)
    (s : String) (u : User) (p : Profile) (w1 w2 : σ)
    (hs : isGuestSuffix s = true)
    (hcreate : S.createGuestUser w
      ⟨"Human", s, "Human" ++ s ++ "@pawprint.com", S.hash s⟩ = .ok (u, w1))
    (hprofile : S.createOrUpdateProfile w1
      ⟨"null", u.firstName ++ "_" ++ u.lastName, "Default", true⟩ u.id = .ok (p, w2))
    (hemail : u.email = "Human" ++ s ++ "@pawprint.com")
    (hpw : u.password = some (S.hash s))
    (hfb : truthy u.facebookId = false) (hg : truthy u.googleId = false)
    (hfind : S.getUserByEmail w2 u.email = some u)
    (hverify : ∀ x, S.compare x (S.hash x) = true) :
    escape (trim u.email) = u.email ∧
    escape (trim s) = s ∧
    (runChains (authenticateUserChains S w2) (createGuestUser S w req s).req).2 = [] ∧
    (authenticateUser S w2 (createGuestUser S w req s).req).next = true := by
  have hsan_s : escape (trim s) = s := sanitize_eq_self s (plain_of_isGuestSuffix s hs)
  have hsan_e : escape (trim u.email) = u.email := by
    rw [hemail]; exact sanitize_eq_self _ (plain_guest_email s hs)
  have hreq : (createGuestUser S w req s).req =
      { req with body := { req.body with email := some u.email, password := some s } } := by
    simp [createGuestUser, hcreate, hprofile]
  have herrs : (runChains (authenticateUserChains S w2) (createGuestUser S w req s).req).2 =
      [] := by
    rw [authenticateUser_validation, hreq]
    simp [sanitize, toStr_some, hsan_e, hsan_s, hfind, authEmailErrors, authPasswordErrors,
      hfb, hg, hpw, hverify]
  refine ⟨hsan_e, hsan_s, herrs, ?_⟩
  simp [authenticateUser, authenticateUserHandler, herrs]

/-- C8 (guest credential round trip): for an 8-digit numeric suffix `s`, `createGuestUser`
first hashes `s` and then asks the store to create the account with lastName `s`, email
`Human<s>@pawprint.com` and password `hash(s)`; when both service calls succeed it forwards
`req.body.email` = the created account's email and `req.body.password` = `s` and calls
`next()` without sending a response. Given moreover a hasher with `verify(x, hash(x))` true
and a store that returns the account it was given, `trim` and `escape` leave both forwarded
values unchanged and `authenticateUser` validates them with an empty error list and calls
`next()`. -/
theorem guest_credentials_round_trip {σ : Type} (S : Services σ) (w : σ) (req : Req)
    (s : String) (hs : isGuestSuffix s = true) :
    (createGuestUser S w req s).calls.take 2 =
      [.bcryptHash s,
        .createGuestUser ⟨"Human", s, "Human" ++ s ++ "@pawprint.com", S.hash s⟩] ∧
    (∀ u p w1 w2,
      S.createGuestUser w ⟨"Human", s, "Human" ++ s ++ "@pawprint.com", S.hash s⟩ =
        .ok (u, w1) →
      S.createOrUpdateProfile w1
        ⟨"null", u.firstName ++ "_" ++ u.lastName, "Default", true⟩ u.id = .ok (p, w2) →
      (createGuestUser S w req s).calls =
        [.bcryptHash s,
          .createGuestUser ⟨"Human", s, "Human" ++ s ++ "@pawprint.com", S.hash s⟩,
          .createOrUpdateProfile ⟨"null", u.firstName ++ "_" ++ u.lastName, "Default", true⟩
            u.id] ∧
      (createGuestUser S w req s).next = true ∧
      (createGuestUser S w req s).response = none ∧
      (createGuestUser S w req s).world = w2 ∧
      (createGuestUser S w req s).req.body.email = some u.email ∧
      (createGuestUser S w req s).req.body.password = some s) ∧
    (∀ u p w1 w2,
      S.createGuestUser w ⟨"Human", s, "Human" ++ s ++ "@pawprint.com", S.hash s⟩ =
        .ok (u, w1) →
      S.createOrUpdateProfile w1
        ⟨"null", u.firstName ++ "_" ++ u.lastName, "Default", true⟩ u.id = .ok (p, w2) →
      u.email = "Human" ++ s ++ "@pawprint.com" → u.password = some (S.hash s) →
      truthy u.facebookId = false → truthy u.googleId = false →
      S.getUserByEmail w2 u.email = some u →
      (∀ x, S.compare x (S.hash x) = true) →
      escape (trim u.email) = u.email ∧
      escape (trim s) = s ∧
      (runChains (authenticateUserChains S w2) (createGuestUser S w req s).req).2 = [] ∧
      (authenticateUser S w2 (createGuestUser S w req s).req).next = true) := by
  refine ⟨?_, ?_, ?_⟩
  · cases h1 : S.createGuestUser w ⟨"Human", s, "Human" ++ s ++ "@pawprint.com", S.hash s⟩ with
    | error message => simp [createGuestUser, h1]
    | ok r =>
      obtain ⟨u, w1⟩ := r
      cases h2 : S.createOrUpdateProfile w1
          ⟨"null", u.firstName ++ "_" ++ u.lastName, "Default", true⟩ u.id with
      | error message => simp [createGuestUser, h1, h2]
      | ok r2 => simp [createGuestUser, h1, h2]
  · intro u p w1 w2 hcreate hprofile
    simp [createGuestUser, hcreate, hprofile]
  · intro u p w1 w2 hcreate hprofile hemail hpw hfb hg hfind hverify
    exact guest_round_trip_core S w req s u p w1 w2 hs hcreate hprofile hemail hpw hfb hg
      hfind hverify

theorem toyCompare_toyHash (x : String) : toyCompare x (toyHash x) = true := by
  simp [toyCompare, toyHash]

/-- Witness for C8: the suffix 12345678 on the empty in-memory store. -/
theorem guest_credentials_round_trip_witness :
    isGuestSuffix "12345678" = true ∧
    (createGuestUser exampleServices [] ⟨⟨none, none, none, none, none⟩, 0⟩ "12345678").calls =
      [.bcryptHash "12345678",
        .createGuestUser ⟨"Human", "12345678", "Human12345678@pawprint.com", "#12345678"⟩,
        .createOrUpdateProfile ⟨"null", "Human_12345678", "Default", true⟩ 1] ∧
    (createGuestUser exampleServices [] ⟨⟨none, none, none, none, none⟩, 0⟩
        "12345678").req.body.email = some "Human12345678@pawprint.com" ∧
    (createGuestUser exampleServices [] ⟨⟨none, none, none, none, none⟩, 0⟩
        "12345678").req.body.password = some "12345678" ∧
    (runChains (authenticateUserChains exampleServices
        [⟨1, "Human", "12345678", "Human12345678@pawprint.com", some "#12345678", none, none⟩])
      (createGuestUser exampleServices [] ⟨⟨none, none, none, none, none⟩, 0⟩
        "12345678").req).2 = [] :=
  have h := guest_credentials_round_trip exampleServices []
    ⟨⟨none, none, none, none, none⟩, 0⟩ "12345678" (by decide)
  have h2 := h.2.1
    ⟨1, "Human", "12345678", "Human12345678@pawprint.com", some "#12345678", none, none⟩
    ⟨1, "Human_12345678", "Default", true, 1⟩
    [⟨1, "Human", "12345678", "Human12345678@pawprint.com", some "#12345678", none, none⟩]
    [⟨1, "Human", "12345678", "Human12345678@pawprint.com", some "#12345678", none, none⟩]
    (by decide) (by decide)
  have h3 := h.2.2
    ⟨1, "Human", "12345678", "Human12345678@pawprint.com", some "#12345678", none, none⟩
    ⟨1, "Human_12345678", "Default", true, 1⟩
    [⟨1, "Human", "12345678", "Human12345678@pawprint.com", some "#12345678", none, none⟩]
    [⟨1, "Human", "12345678", "Human12345678@pawprint.com", some "#12345678", none, none⟩]
    (by decide) (by decide) (by decide) (by decide) (by decide) (by decide) (by decide)
    toyCompare_toyHash
  ⟨by decide, h2.1, h2.2.2.2.2.1, h2.2.2.2.2.2, h3.2.2.1⟩

end Pawprint
